import Mathlib

/-!
# Shader lifecycle, timed loop and run loop of the PremakeGraphicalApplication skeleton

A shallow embedding of `source/Shader.cpp` / `include/Shader.hpp` and of the
loops of `source/Application.cpp`.

* `Shader` is the C++ object (its five data members).
* OpenGL is an external collaborator.  It is taken as a parameter: a record
  `OpenGL G` of entry points over an arbitrary driver state `G`.  Every theorem that
  is universally quantified holds for every such driver.
* `World G` is everything outside the object: the driver state, the list of GL
  entry points invoked so far (a ghost trace, used to state "calls no ...") and
  the lines written to `std::cout`.
* A member function `T Shader::f(args)` becomes
  `Shader.f gl self w args : T × Shader × World G`; a function that can leave by
  an exception or by `abort()` returns `Except Fault _`.
* `refGL` is one concrete, executable driver; `demoGL` instantiates it for the
  concrete scenarios (witnesses and counterexamples).
* `Application.timed_loop` is the `while` loop with fuel, over the sequence of
  answers of the predicate and of readings of the clock; it yields the trace of
  predicate evaluations, sleeps and callback invocations.
* `RunState` and `RunState.step` are the interleavings of `Application::loop`
  with the update thread over the two atomic flags.
-/

/-! ## Basic types -/

/-- The enumerators of `enum class Shader::Type : uint8_t`, in increasing order
of their underlying values 0, 1, 2, 4, 8, 16. -/
inductive ShaderType where
  | none
  | vertex
  | fragment
  | compute
  | geometry
  | tesselation
  deriving DecidableEq, Repr

/-- All enumerators in the order `std::map<Type, GLuint>` iterates them. -/
def ShaderType.all : List ShaderType :=
  [.none, .vertex, .fragment, .compute, .geometry, .tesselation]

/-- Ways a call can leave other than by returning. -/
inductive Fault where
  | out_of_range
  | filesystem_error
  | abort
  deriving DecidableEq, Repr

/-- A `std::map<K, V>` seen as a finite partial function. -/
abbrev StdMap (K V : Type) := K → Option V

namespace StdMap

variable {K V : Type}

/-- The map of a default-constructed `std::map`, also the result of `clear()`. -/
def empty : StdMap K V := fun _ => Option.none

/-- Member `contains(k)`. -/
def contains (m : StdMap K V) (k : K) : Bool := (m k).isSome

/-- Member `at(k)`: throws `std::out_of_range` when the key is absent. -/
def atKey (m : StdMap K V) (k : K) : Except Fault V :=
  match m k with
  | some v => .ok v
  | Option.none => .error .out_of_range

/-- Assignment `m[k] = v`. -/
def set [DecidableEq K] (m : StdMap K V) (k : K) (v : V) : StdMap K V :=
  fun j => if j = k then some v else m j

/-- Read access `m[k]`: inserts the value-initialised `dflt` when the key is
absent, and yields the mapped value together with the map. -/
def index [DecidableEq K] (m : StdMap K V) (k : K) (dflt : V) : V × StdMap K V :=
  match m k with
  | some v => (v, m)
  | Option.none => (dflt, set m k dflt)

/-- Member `erase(k)`. -/
def erase [DecidableEq K] (m : StdMap K V) (k : K) : StdMap K V :=
  fun j => if j = k then Option.none else m j

end StdMap

/-! ## The OpenGL collaborator -/

/-- `GL_TRUE`. -/
def GL_TRUE : Int := 1

/-- `GL_VERTEX_SHADER`. -/
def GL_VERTEX_SHADER : Nat := 0x8B31
/-- `GL_FRAGMENT_SHADER`. -/
def GL_FRAGMENT_SHADER : Nat := 0x8B30
/-- `GL_COMPUTE_SHADER`. -/
def GL_COMPUTE_SHADER : Nat := 0x91B9
/-- `GL_GEOMETRY_SHADER`. -/
def GL_GEOMETRY_SHADER : Nat := 0x8DD9
/-- `GL_TESS_EVALUATION_SHADER`. -/
def GL_TESS_EVALUATION_SHADER : Nat := 0x8E87

/-- The OpenGL entry points `Shader.cpp` uses, over a driver state `G`.
Queries are functions of the driver state; commands return the new state.
`GLuint` names are `Nat`, `GLint` results are `Int`. -/
structure OpenGL (G : Type) where
  IsShader : G → Nat → Bool
  CreateShader : G → Nat → Nat × G
  ShaderSource : G → Nat → List String → G
  CompileShader : G → Nat → G
  /-- The value `glGetShaderiv(shader, GL_COMPILE_STATUS, &result)` leaves in `result`. -/
  ShaderCompileStatus : G → Nat → Int
  /-- The text `glGetShaderInfoLog` writes for the shader. -/
  ShaderInfoLog : G → Nat → String
  DeleteShader : G → Nat → G
  IsProgram : G → Nat → Bool
  CreateProgram : G → Nat × G
  AttachShader : G → Nat → Nat → G
  LinkProgram : G → Nat → G
  /-- The value `glGetProgramiv(program, GL_LINK_STATUS, &result)` leaves in `result`. -/
  ProgramLinkStatus : G → Nat → Int
  ProgramInfoLog : G → Nat → String
  DetachShader : G → Nat → Nat → G
  DeleteProgram : G → Nat → G
  /-- `GL_ACTIVE_UNIFORMS` of the program. -/
  ActiveUniforms : G → Nat → Int
  /-- The name `glGetActiveUniform(program, index, ...)` writes into a buffer of
  `GL_ACTIVE_UNIFORM_MAX_LENGTH` characters. -/
  ActiveUniformName : G → Nat → Nat → String
  UniformLocation : G → Nat → String → Int
  /-- `GL_ACTIVE_ATTRIBUTES` of the program. -/
  ActiveAttributes : G → Nat → Int
  /-- The name `glGetActiveAttrib(program, index, ...)` writes into a buffer of
  `GL_ACTIVE_ATTRIBUTE_MAX_LENGTH` characters. -/
  ActiveAttribName : G → Nat → Nat → String
  AttribLocation : G → Nat → String → Int

/-- One invocation of a GL entry point, with its arguments. -/
inductive GLCall where
  | isShader (shader : Nat)
  | createShader (kind : Nat)
  | shaderSource (shader : Nat) (source : List String)
  | compileShader (shader : Nat)
  | getShaderCompileStatus (shader : Nat)
  | getShaderInfoLogLength (shader : Nat)
  | getShaderInfoLog (shader : Nat)
  | deleteShader (shader : Nat)
  | isProgram (program : Nat)
  | createProgram
  | attachShader (program shader : Nat)
  | linkProgram (program : Nat)
  | getProgramLinkStatus (program : Nat)
  | getProgramInfoLogLength (program : Nat)
  | getProgramInfoLog (program : Nat)
  | detachShader (program shader : Nat)
  | deleteProgram (program : Nat)
  | getActiveUniforms (program : Nat)
  | getActiveUniformMaxLength (program : Nat)
  | getActiveUniform (program index : Nat)
  | getUniformLocation (program : Nat) (name : String)
  | getActiveAttributes (program : Nat)
  | getActiveAttributeMaxLength (program : Nat)
  | getActiveAttrib (program index : Nat)
  | getAttribLocation (program : Nat) (name : String)
  deriving DecidableEq, Repr

/-- Everything outside the `Shader` object. -/
structure World (G : Type) where
  /-- The driver state. -/
  gl : G
  /-- The GL entry points invoked so far, oldest first. -/
  calls : List GLCall
  /-- The lines written to `std::cout` so far, oldest first. -/
  out : List String

namespace World

variable {G : Type}

/-- Record one GL call and its effect on the driver state. -/
def call (w : World G) (c : GLCall) (g : G) : World G :=
  { w with gl := g, calls := w.calls ++ [c] }

/-- The statement `std::cout << line << std::endl`. -/
def print (w : World G) (line : String) : World G :=
  { w with out := w.out ++ [line] }

end World

section Calls

variable {G : Type} (gl : OpenGL G)

def glIsShader (w : World G) (shader : Nat) : Bool × World G :=
  (gl.IsShader w.gl shader, w.call (.isShader shader) w.gl)

def glCreateShader (w : World G) (kind : Nat) : Nat × World G :=
  ((gl.CreateShader w.gl kind).1, w.call (.createShader kind) (gl.CreateShader w.gl kind).2)

def glShaderSource (w : World G) (shader : Nat) (source : List String) : World G :=
  w.call (.shaderSource shader source) (gl.ShaderSource w.gl shader source)

def glCompileShader (w : World G) (shader : Nat) : World G :=
  w.call (.compileShader shader) (gl.CompileShader w.gl shader)

def glGetShaderCompileStatus (w : World G) (shader : Nat) : Int × World G :=
  (gl.ShaderCompileStatus w.gl shader, w.call (.getShaderCompileStatus shader) w.gl)

/-- The pair `glGetShaderiv(shader, GL_INFO_LOG_LENGTH, ..)`, `glGetShaderInfoLog`. -/
def glGetShaderInfoLog (w : World G) (shader : Nat) : String × World G :=
  (gl.ShaderInfoLog w.gl shader,
    (w.call (.getShaderInfoLogLength shader) w.gl).call (.getShaderInfoLog shader) w.gl)

def glDeleteShader (w : World G) (shader : Nat) : World G :=
  w.call (.deleteShader shader) (gl.DeleteShader w.gl shader)

def glIsProgram (w : World G) (program : Nat) : Bool × World G :=
  (gl.IsProgram w.gl program, w.call (.isProgram program) w.gl)

def glCreateProgram (w : World G) : Nat × World G :=
  ((gl.CreateProgram w.gl).1, w.call .createProgram (gl.CreateProgram w.gl).2)

def glAttachShader (w : World G) (program shader : Nat) : World G :=
  w.call (.attachShader program shader) (gl.AttachShader w.gl program shader)

def glLinkProgram (w : World G) (program : Nat) : World G :=
  w.call (.linkProgram program) (gl.LinkProgram w.gl program)

def glGetProgramLinkStatus (w : World G) (program : Nat) : Int × World G :=
  (gl.ProgramLinkStatus w.gl program, w.call (.getProgramLinkStatus program) w.gl)

/-- The pair `glGetProgramiv(program, GL_INFO_LOG_LENGTH, ..)`, `glGetProgramInfoLog`. -/
def glGetProgramInfoLog (w : World G) (program : Nat) : String × World G :=
  (gl.ProgramInfoLog w.gl program,
    (w.call (.getProgramInfoLogLength program) w.gl).call (.getProgramInfoLog program) w.gl)

def glDetachShader (w : World G) (program shader : Nat) : World G :=
  w.call (.detachShader program shader) (gl.DetachShader w.gl program shader)

def glDeleteProgram (w : World G) (program : Nat) : World G :=
  w.call (.deleteProgram program) (gl.DeleteProgram w.gl program)

/-- The pair of `glGetProgramiv` queries `GL_ACTIVE_UNIFORMS`,
`GL_ACTIVE_UNIFORM_MAX_LENGTH`; the second only sizes the name buffer. -/
def glGetActiveUniforms (w : World G) (program : Nat) : Int × World G :=
  (gl.ActiveUniforms w.gl program,
    (w.call (.getActiveUniforms program) w.gl).call (.getActiveUniformMaxLength program) w.gl)

def glGetActiveUniform (w : World G) (program index : Nat) : String × World G :=
  (gl.ActiveUniformName w.gl program index, w.call (.getActiveUniform program index) w.gl)

def glGetUniformLocation (w : World G) (program : Nat) (name : String) : Int × World G :=
  (gl.UniformLocation w.gl program name, w.call (.getUniformLocation program name) w.gl)

/-- The pair of `glGetProgramiv` queries `GL_ACTIVE_ATTRIBUTES`,
`GL_ACTIVE_ATTRIBUTE_MAX_LENGTH`; the second only sizes the name buffer. -/
def glGetActiveAttributes (w : World G) (program : Nat) : Int × World G :=
  (gl.ActiveAttributes w.gl program,
    (w.call (.getActiveAttributes program) w.gl).call (.getActiveAttributeMaxLength program) w.gl)

def glGetActiveAttrib (w : World G) (program index : Nat) : String × World G :=
  (gl.ActiveAttribName w.gl program index, w.call (.getActiveAttrib program index) w.gl)

def glGetAttribLocation (w : World G) (program : Nat) (name : String) : Int × World G :=
  (gl.AttribLocation w.gl program name, w.call (.getAttribLocation program name) w.gl)

end Calls

/-! ## The `Shader` object -/

/-- The data members of `class Shader`. -/
structure Shader where
  m_valid : Bool
  m_program : Nat
  m_shaders : StdMap ShaderType Nat
  m_uniforms : StdMap String Int
  m_attributes : StdMap String Int

/-- The text of `default_vertex`. -/
def default_vertex : String :=
  "\n  #version 110\n  \n  uniform mat4 MVP;\n  attribute vec3 vPos;\n  \n  void main()\n  \x7b\n    gl_Position = MVP * vec4(vPos, 1.0);\n  \x7d\n"

/-- The text of `default_fragment`. -/
def default_fragment : String :=
  "\n  #version 110\n  \n  void main()\n  \x7b\n    gl_FragColor = vec4(1.0, 0.0, 1.0, 1.0);\n  \x7d\n"

namespace Shader

variable {G : Type} (gl : OpenGL G)

/-- The constructor `Shader::Shader()`. -/
def new : Shader :=
  { m_valid := false, m_program := 0, m_shaders := StdMap.empty,
    m_uniforms := StdMap.empty, m_attributes := StdMap.empty }

/-- `Shader::valid() const`. -/
def valid (self : Shader) : Bool := self.m_valid

/-- `Shader::typeFromString`. -/
def typeFromString (name : String) : ShaderType :=
  if name = "vertex" then .vertex
  else if name = "fragment" then .fragment
  else if name = "compute" then .compute
  else if name = "geometry" then .geometry
  else if name = "tesselation" then .tesselation
  else .none

/-- `Shader::typeToGl`. -/
def typeToGl (type : ShaderType) : Nat :=
  match type with
  | .vertex => GL_VERTEX_SHADER
  | .fragment => GL_FRAGMENT_SHADER
  | .compute => GL_COMPUTE_SHADER
  | .geometry => GL_GEOMETRY_SHADER
  | .tesselation => GL_TESS_EVALUATION_SHADER
  | .none => 0

/-- `Shader::getShaderErrors`: reads the shader's info log and prints it. -/
def getShaderErrors (w : World G) (shaderId : Nat) : World G :=
  let r := glGetShaderInfoLog gl w shaderId
  r.2.print ("Shader compile error: " ++ r.1)

/-- `Shader::getProgramErrors`: reads the program's info log and prints it. -/
def getProgramErrors (self : Shader) (w : World G) : World G :=
  let r := glGetProgramInfoLog gl w self.m_program
  r.2.print ("Shader linkage error: " ++ r.1)

/-- `Shader::getOrCreate`. -/
def getOrCreate (self : Shader) (w : World G) (type : ShaderType) :
    Except Fault (Nat × Shader × World G) :=
  -- `m_shaders[type]` inserts `type ↦ 0` when the key is absent
  let ix := StdMap.index self.m_shaders type 0
  let self1 : Shader := { self with m_shaders := ix.2 }
  let q := glIsShader gl w ix.1
  if !q.1 then
    let c := glCreateShader gl q.2 (typeToGl type)
    .ok (c.1, { self1 with m_shaders := StdMap.set self1.m_shaders type c.1 }, c.2)
  else
    match StdMap.atKey self1.m_shaders type with
    | .ok result => .ok (result, self1, q.2)
    | .error e => .error e

/-- The tail shared by both `addSource` overloads once the stage's handle is
known: `glShaderSource`, `glCompileShader`, the status check. -/
def compileStage (self : Shader) (w : World G) (shaderId : Nat) (source : List String) :
    Bool × Shader × World G :=
  let w1 := glShaderSource gl w shaderId source
  let w2 := glCompileShader gl w1 shaderId
  let result := glGetShaderCompileStatus gl w2 shaderId
  if result.1 ≠ GL_TRUE then
    (false, self, getShaderErrors gl result.2 shaderId)
  else
    (true, { self with m_valid := false }, result.2)

/-- `Shader::addSource(Type, const std::string_view &)`. -/
def addSource (self : Shader) (w : World G) (type : ShaderType) (source : String) :
    Except Fault (Bool × Shader × World G) :=
  match getOrCreate gl self w type with
  | .error e => .error e
  | .ok (shaderId, self1, w1) => .ok (compileStage gl self1 w1 shaderId [source])

/-- `Shader::addSource(Type, const std::vector<std::string_view> &)`. -/
def addSource_vector (self : Shader) (w : World G) (type : ShaderType)
    (source : List String) : Except Fault (Bool × Shader × World G) :=
  match getOrCreate gl self w type with
  | .error e => .error e
  | .ok (shaderId, self1, w1) => .ok (compileStage gl self1 w1 shaderId source)

/-- What `std::filesystem::exists` and `std::ifstream` find at a path. -/
inductive FileState where
  /-- The status query of `std::filesystem::exists(path)` fails (a name too long,
  a directory on the way that cannot be searched): the call throws
  `filesystem_error`, which `addFile` does not catch. -/
  | statFails
  /-- `std::filesystem::exists` is false. -/
  | missing
  /-- The path exists and the stream fails to open; `err` is `strerror(errno)`. -/
  | unopenable (err : String)
  /-- The stream opens; `contents` is what `buffer << ifs.rdbuf()` reads. -/
  | readable (contents : String)
  deriving DecidableEq, Repr

/-- `Shader::addFile`; `fs` is the file system at the time of the call. -/
def addFile (fs : String → FileState) (self : Shader) (w : World G) (type : ShaderType)
    (filePath : String) : Except Fault (Bool × Shader × World G) :=
  match fs filePath with
  | .statFails => .error .filesystem_error
  | .missing =>
    .ok (false, self, w.print ("Shader compile error: \"" ++ filePath
      ++ "\" does not exist or is inaccessible."))
  | .unopenable err => .ok (false, self, w.print ("Shader compile error: " ++ err))
  | .readable contents => addSource gl self w type contents

/-- `Shader::remove`. -/
def remove (self : Shader) (w : World G) (type : ShaderType) : Except Fault (Shader × World G) :=
  if StdMap.contains self.m_shaders type then
    match StdMap.atKey self.m_shaders type with
    | .error e => .error e
    | .ok shaderId =>
      let self1 : Shader := { self with m_shaders := StdMap.erase self.m_shaders type }
      let q := glIsShader gl w shaderId
      if q.1 then
        .ok ({ self1 with m_valid := false }, glDeleteShader gl q.2 shaderId)
      else
        .ok (self1, q.2)
  else
    .ok (self, w)

/-- The `(key, value)` pairs a range-for over `m_shaders` visits, in key order. -/
def entries (m : StdMap ShaderType Nat) : List (ShaderType × Nat) :=
  ShaderType.all.filterMap (fun t => (m t).map (fun h => (t, h)))

/-- One round of the loop of `clear`: `if (glIsShader(shaderId)) glDeleteShader(shaderId);`. -/
def clearStep (w : World G) (e : ShaderType × Nat) : World G :=
  let q := glIsShader gl w e.2
  if q.1 then glDeleteShader gl q.2 e.2 else q.2

/-- `Shader::clear`. -/
def clear (self : Shader) (w : World G) : Shader × World G :=
  let w1 := (entries self.m_shaders).foldl (clearStep gl) w
  let self1 : Shader := { self with m_shaders := StdMap.empty }
  let q := glIsProgram gl w1 self1.m_program
  let w2 := if q.1 then glDeleteProgram gl q.2 self1.m_program else q.2
  ({ self1 with m_program := 0, m_valid := false }, w2)

/-- One round of the loop of `scanUniforms`. -/
def scanUniformsStep (sw : Shader × World G) (i : Nat) : Shader × World G :=
  let n := glGetActiveUniform gl sw.2 sw.1.m_program i
  let l := glGetUniformLocation gl n.2 sw.1.m_program n.1
  ({ sw.1 with m_uniforms := StdMap.set sw.1.m_uniforms n.1 l.1 }, l.2)

/-- `Shader::scanUniforms`. -/
def scanUniforms (self : Shader) (w : World G) : Shader × World G :=
  let uniforms := glGetActiveUniforms gl w self.m_program
  (List.range uniforms.1.toNat).foldl (scanUniformsStep gl) (self, uniforms.2)

/-- One round of the loop of `scanAttributes`. -/
def scanAttributesStep (sw : Shader × World G) (i : Nat) : Shader × World G :=
  let n := glGetActiveAttrib gl sw.2 sw.1.m_program i
  let l := glGetAttribLocation gl n.2 sw.1.m_program n.1
  ({ sw.1 with m_attributes := StdMap.set sw.1.m_attributes n.1 l.1 }, l.2)

/-- `Shader::scanAttributes`. -/
def scanAttributes (self : Shader) (w : World G) : Shader × World G :=
  let attributes := glGetActiveAttributes gl w self.m_program
  (List.range attributes.1.toNat).foldl (scanAttributesStep gl) (self, attributes.2)

/-- One round of the first loop of `compile`. -/
def attachStep (program : Nat) (w : World G) (e : ShaderType × Nat) : World G :=
  let q := glIsShader gl w e.2
  if q.1 then glAttachShader gl q.2 program e.2 else q.2

/-- One round of the second loop of `compile`. -/
def detachStep (program : Nat) (w : World G) (e : ShaderType × Nat) : World G :=
  let q := glIsShader gl w e.2
  if q.1 then glDetachShader gl q.2 program e.2 else q.2

/-- `Shader::compile`. -/
def compile (self : Shader) (w : World G) : Bool × Shader × World G :=
  let q := glIsProgram gl w self.m_program
  let c : Nat × World G := if !q.1 then glCreateProgram gl q.2 else (self.m_program, q.2)
  let self1 : Shader := { self with m_program := c.1 }
  let w1 := c.2
  let w2 := (entries self1.m_shaders).foldl (attachStep gl self1.m_program) w1
  let w3 := glLinkProgram gl w2 self1.m_program
  let result := glGetProgramLinkStatus gl w3 self1.m_program
  let w4 := if result.1 ≠ GL_TRUE then getProgramErrors gl self1 result.2 else result.2
  let self2 : Shader := { self1 with m_valid := decide (result.1 = GL_TRUE) }
  let w5 := (entries self2.m_shaders).foldl (detachStep gl self2.m_program) w4
  if self2.m_valid then
    let u := scanUniforms gl self2 w5
    let a := scanAttributes gl u.1 u.2
    (a.1.m_valid, a.1, a.2)
  else
    (self2.m_valid, self2, w5)

/-- The non-const `Shader::id()`. -/
def id (self : Shader) (w : World G) : Nat × Shader × World G :=
  let r : Shader × World G := if !self.m_valid then (compile gl self w).2 else (self, w)
  (if r.1.m_valid then r.1.m_program else 0, r.1, r.2)

/-- The overload `Shader::id() const`. -/
def id_const (self : Shader) : Nat :=
  if self.m_valid then self.m_program else 0

/-- `Shader::getUniform`, a const member function. -/
def getUniform (self : Shader) (name : String) : Except Fault Int :=
  if !StdMap.contains self.m_uniforms name then .ok (-1)
  else StdMap.atKey self.m_uniforms name

/-- `Shader::getAttribute`, a const member function. -/
def getAttribute (self : Shader) (name : String) : Except Fault Int :=
  if !StdMap.contains self.m_attributes name then .ok (-1)
  else StdMap.atKey self.m_attributes name

/-- `Shader::getDefaultShader`; `default_shader` is the static member at the time
of the call, and the result carries its state at the return. -/
def getDefaultShader (default_shader : Shader) (w : World G) : Except Fault (Shader × World G) :=
  let r : Except Fault (Shader × World G) :=
    if !default_shader.valid then
      match addSource gl default_shader w .vertex default_vertex with
      | .error e => .error e
      | .ok a =>
        match addSource gl a.2.1 a.2.2 .fragment default_fragment with
        | .error e => .error e
        | .ok b => .ok (compile gl b.2.1 b.2.2).2
    else .ok (default_shader, w)
  match r with
  | .error e => .error e
  | .ok sw => if !sw.1.valid then .error .abort else .ok sw

end Shader

/-! ## Vocabulary for the statements -/

/-- Whether a trace entry is a `glLinkProgram`; `compile` issues exactly one. -/
def GLCall.isLink : GLCall → Bool
  | .linkProgram _ => true
  | _ => false

/-- How many times `glLinkProgram` has been invoked so far. -/
def World.links {G : Type} (w : World G) : Nat := w.calls.countP GLCall.isLink

/-- The names `scanUniforms` reads from the program: the name of every active
uniform index below `GL_ACTIVE_UNIFORMS`. -/
def activeUniformNames {G : Type} (gl : OpenGL G) (g : G) (program : Nat) : List String :=
  (List.range (gl.ActiveUniforms g program).toNat).map (gl.ActiveUniformName g program)

/-- The names `scanAttributes` reads from the program: the name of every active
attribute index below `GL_ACTIVE_ATTRIBUTES`. -/
def activeAttribNames {G : Type} (gl : OpenGL G) (g : G) (program : Nat) : List String :=
  (List.range (gl.ActiveAttributes g program).toNat).map (gl.ActiveAttribName g program)

/-- The part of `Shader::compile` before `if (m_valid)`: program creation, the
attach loop, the link, the status check and the detach loop. -/
def Shader.compileLink {G : Type} (gl : OpenGL G) (self : Shader) (w : World G) :
    Shader × World G :=
  let q := glIsProgram gl w self.m_program
  let c : Nat × World G := if !q.1 then glCreateProgram gl q.2 else (self.m_program, q.2)
  let self1 : Shader := { self with m_program := c.1 }
  let w1 := c.2
  let w2 := (Shader.entries self1.m_shaders).foldl (Shader.attachStep gl self1.m_program) w1
  let w3 := glLinkProgram gl w2 self1.m_program
  let result := glGetProgramLinkStatus gl w3 self1.m_program
  let w4 := if result.1 ≠ GL_TRUE then Shader.getProgramErrors gl self1 result.2 else result.2
  let self2 : Shader := { self1 with m_valid := decide (result.1 = GL_TRUE) }
  let w5 := (Shader.entries self2.m_shaders).foldl (Shader.detachStep gl self2.m_program) w4
  (self2, w5)

/-! ## A reference driver

One concrete OpenGL driver, following the OpenGL object model: shader and
program objects share one name space, name 0 is never an object, a link succeeds
when at least one stage is attached and every attached stage is compiled.  The
GLSL front end is a parameter `glsl`: for a stage kind and a source it says
whether the source compiles and which active uniforms and attributes it
contributes. -/

/-- A shader object of the reference driver. -/
structure RefShader where
  kind : Nat
  source : List String
  compiled : Bool
  deriving DecidableEq, Repr

/-- A program object of the reference driver. -/
structure RefProgram where
  attached : List Nat
  linked : Bool
  uniforms : List String
  attributes : List String
  deriving DecidableEq, Repr

/-- The state of the reference driver. -/
structure RefState where
  shaders : List (Nat × RefShader)
  programs : List (Nat × RefProgram)
  /-- The next unused object name. -/
  next : Nat
  deriving DecidableEq, Repr

namespace RefState

/-- A context in which no object has been created. -/
def init : RefState := { shaders := [], programs := [], next := 1 }

/-- Replace the object stored under `name`, if there is one. -/
def update {α : Type} (l : List (Nat × α)) (name : Nat) (f : α → α) : List (Nat × α) :=
  l.map (fun e => if e.1 = name then (e.1, f e.2) else e)

/-- Drop the object stored under `name`. -/
def drop {α : Type} (l : List (Nat × α)) (name : Nat) : List (Nat × α) :=
  l.filter (fun e => e.1 ≠ name)

/-- The stage kinds `glCreateShader` accepts. -/
def shaderKinds : List Nat :=
  [GL_VERTEX_SHADER, GL_FRAGMENT_SHADER, GL_COMPUTE_SHADER, GL_GEOMETRY_SHADER,
    GL_TESS_EVALUATION_SHADER]

/-- The position of `name` in `l`, or -1. -/
def location (l : List String) (name : String) : Int :=
  if name ∈ l then (l.indexOf name : Int) else -1

end RefState

/-- The reference driver over a GLSL front end `glsl`. -/
def refGL (glsl : Nat → List String → Option (List String × List String)) : OpenGL RefState where
  IsShader g h := (g.shaders.lookup h).isSome
  CreateShader g kind :=
    if kind ∈ RefState.shaderKinds then
      (g.next, { g with
        shaders := g.shaders ++ [(g.next, { kind := kind, source := [], compiled := false })],
        next := g.next + 1 })
    else (0, g)
  ShaderSource g h src :=
    { g with shaders := RefState.update g.shaders h (fun s => { s with source := src }) }
  CompileShader g h :=
    { g with shaders := (RefState.update g.shaders h
        (fun s => { s with compiled := (glsl s.kind s.source).isSome })) }
  ShaderCompileStatus g h :=
    match g.shaders.lookup h with
    | some s => if s.compiled then 1 else 0
    | none => 0
  ShaderInfoLog g h :=
    match g.shaders.lookup h with
    | some s => if s.compiled then "" else "ERROR: compilation failed"
    | none => ""
  DeleteShader g h := { g with shaders := RefState.drop g.shaders h }
  IsProgram g p := (g.programs.lookup p).isSome
  CreateProgram g :=
    (g.next, { g with
      programs := g.programs ++
        [(g.next, { attached := [], linked := false, uniforms := [], attributes := [] })],
      next := g.next + 1 })
  AttachShader g p h :=
    if (g.shaders.lookup h).isSome then
      { g with programs := (RefState.update g.programs p
          (fun q => if h ∈ q.attached then q else { q with attached := q.attached ++ [h] })) }
    else g
  LinkProgram g p :=
    { g with programs := (RefState.update g.programs p fun q =>
        let stages := q.attached.filterMap (fun h => g.shaders.lookup h)
        let parts := stages.filterMap (fun s => if s.compiled then glsl s.kind s.source else none)
        if stages ≠ [] ∧ parts.length = stages.length then
          { q with linked := true,
                   uniforms := (parts.map (fun x => x.1)).flatten.eraseDups,
                   attributes := (parts.map (fun x => x.2)).flatten.eraseDups }
        else
          { q with linked := false, uniforms := [], attributes := [] }) }
  ProgramLinkStatus g p :=
    match g.programs.lookup p with
    | some q => if q.linked then 1 else 0
    | none => 0
  ProgramInfoLog g p :=
    match g.programs.lookup p with
    | some q => if q.linked then "" else "ERROR: link failed"
    | none => ""
  DetachShader g p h :=
    { g with programs := (RefState.update g.programs p
        (fun q => { q with attached := q.attached.filter (fun x => x ≠ h) })) }
  DeleteProgram g p := { g with programs := RefState.drop g.programs p }
  ActiveUniforms g p :=
    match g.programs.lookup p with
    | some q => q.uniforms.length
    | none => 0
  ActiveUniformName g p i :=
    match g.programs.lookup p with
    | some q => q.uniforms.getD i ""
    | none => ""
  UniformLocation g p name :=
    match g.programs.lookup p with
    | some q => RefState.location q.uniforms name
    | none => -1
  ActiveAttributes g p :=
    match g.programs.lookup p with
    | some q => q.attributes.length
    | none => 0
  ActiveAttribName g p i :=
    match g.programs.lookup p with
    | some q => q.attributes.getD i ""
    | none => ""
  AttribLocation g p name :=
    match g.programs.lookup p with
    | some q => RefState.location q.attributes name
    | none => -1

/-- A vertex stage without uniforms (the vertex source of the spec's scenario). -/
def plain_vertex : String :=
  "#version 110\nattribute vec3 vPos; void main()\x7bgl_Position=vec4(vPos,1.0);\x7d"

/-- A text that is not GLSL. -/
def not_glsl : String := "this is not a shader"

/-- The GLSL front end on the four texts used below: what a conforming compiler
answers for `default_vertex`, `default_fragment` and `plain_vertex` in their
stage, and a compile error for anything else. -/
def demoGLSL (kind : Nat) (source : List String) : Option (List String × List String) :=
  if kind = GL_VERTEX_SHADER ∧ source = [default_vertex] then some (["MVP"], ["vPos"])
  else if kind = GL_VERTEX_SHADER ∧ source = [plain_vertex] then some ([], ["vPos"])
  else if kind = GL_FRAGMENT_SHADER ∧ source = [default_fragment] then some ([], [])
  else none

/-- The reference driver with the front end `demoGLSL`. -/
def demoGL : OpenGL RefState := refGL demoGLSL

/-- The world before any GL call. -/
def World.init : World RefState := { gl := RefState.init, calls := [], out := [] }

/-- A user's shader after `addSource(Type::vertex, default_vertex)` and
`addSource(Type::fragment, default_fragment)` on a freshly constructed object
in a fresh context. -/
def demoStaged : Except Fault (Shader × World RefState) :=
  match Shader.addSource demoGL Shader.new World.init .vertex default_vertex with
  | .error e => .error e
  | .ok a =>
    match Shader.addSource demoGL a.2.1 a.2.2 .fragment default_fragment with
    | .error e => .error e
    | .ok b => .ok b.2

/-- The shader of `demoStaged` after `compile()`. -/
def demoLinked : Except Fault (Shader × World RefState) :=
  match demoStaged with
  | .error e => .error e
  | .ok a => .ok (Shader.compile demoGL a.1 a.2).2

/-! ## The move operations of `Shader` -/

namespace Shader

/-- The move constructor `Shader::Shader(Shader &&mv)`: the constructed object
and `mv` as the constructor leaves it.  The three maps of `mv` are moved from and
then cleared. -/
def moveConstruct (mv : Shader) : Shader × Shader :=
  ({ m_valid := mv.m_valid, m_program := mv.m_program, m_shaders := mv.m_shaders,
     m_uniforms := mv.m_uniforms, m_attributes := mv.m_attributes },
   { m_valid := false, m_program := 0, m_shaders := StdMap.empty,
     m_uniforms := StdMap.empty, m_attributes := StdMap.empty })

/-- The move assignment `Shader::operator=(Shader &&other)` for an `other` that
is another object than `*this`: `*this` and `other` as the operator leaves them. -/
def moveAssign (self other : Shader) : Shader × Shader :=
  ({ self with m_valid := other.m_valid, m_program := other.m_program,
               m_shaders := other.m_shaders, m_uniforms := other.m_uniforms,
               m_attributes := other.m_attributes },
   { other with m_valid := false, m_program := 0, m_shaders := StdMap.empty,
                m_uniforms := StdMap.empty, m_attributes := StdMap.empty })

/-- The object holds the name `h` as its program handle or as the handle of one
of its stages; 0 is the name of no object. -/
def owns (s : Shader) (h : Nat) : Bool :=
  h != 0 && (s.m_program == h || ShaderType.all.any (fun t => s.m_shaders t == some h))

end Shader

/-! ## `Application::timed_loop`

Durations are counts of ticks of `loop_clock::duration`
(`std::chrono::steady_clock`, which counts nanoseconds).  The `float` handed to
the callback is kept as the exact rational "millisecond count over 1000"; the
rounding of the `float` division is not modelled.  The continuation predicate
and the clock are read through their sequence of answers, so the callback and
the scheduler may influence both in any way. -/

/-- Ticks of `loop_clock::duration` in one millisecond. -/
def TICKS_PER_MS : Int := 1000000

/-- The constant `LOOP_TRESHOLD = 1ms`, in ticks. -/
def LOOP_TRESHOLD : Int := 1 * TICKS_PER_MS

/-- The expression `chrono::duration_cast<clock_unit>(elapsed).count()` with
`clock_unit = chrono::milliseconds`: whole milliseconds, truncated toward zero. -/
def duration_cast_ms (elapsed : Int) : Int := Int.tdiv elapsed TICKS_PER_MS

/-- The value of `count / 1000.0f` as an exact rational. -/
def deltatime (ms : Int) : ℚ := (ms : ℚ) / 1000

/-- What `timed_loop` does that can be observed from outside. -/
inductive LoopEvent where
  /-- One evaluation of `conditionChecker()` and its answer. -/
  | check (answer : Bool)
  /-- The call `std::this_thread::sleep_for(ticks)`. -/
  | sleep (ticks : Int)
  /-- The call `function(deltatime ms)`. -/
  | call (ms : Int)
  deriving DecidableEq, Repr

/-- The surroundings of one run of `timed_loop`. -/
structure LoopEnv where
  /-- The answer of the `k`-th evaluation of `conditionChecker()`, from 0. -/
  conditionChecker : Nat → Bool
  /-- The `k`-th reading of `loop_clock::now()`, from 0, in ticks. -/
  now : Nat → Int

namespace Application

/-- The value of `elapsed` after the `if (elapsed < LOOP_TRESHOLD)` block. -/
def capped (elapsed : Int) : Int :=
  if elapsed < LOOP_TRESHOLD then LOOP_TRESHOLD else elapsed

/-- The events of one round of the loop body, for the measured `elapsed`. -/
def iteration (elapsed : Int) : List LoopEvent :=
  (if elapsed < LOOP_TRESHOLD then [LoopEvent.sleep (LOOP_TRESHOLD - elapsed)] else []) ++
    [LoopEvent.call (duration_cast_ms (capped elapsed))]

/-- The `while` loop of `timed_loop` from its `k`-th predicate evaluation on,
with `last` as it stands and `trace` the events so far.  The result is the
trace and whether the loop has ended; with no `fuel` left it has not. -/
def timed_loop.go (env : LoopEnv) : Nat → Nat → Int → List LoopEvent → List LoopEvent × Bool
  | 0, _, _, trace => (trace, false)
  | fuel + 1, k, last, trace =>
    if env.conditionChecker k then
      let now := env.now (k + 1)
      let elapsed := now - last
      timed_loop.go env fuel (k + 1) now (trace ++ [LoopEvent.check true] ++ iteration elapsed)
    else
      (trace ++ [LoopEvent.check false], true)

/-- `Application::timed_loop`. -/
def timed_loop (fuel : Nat) (env : LoopEnv) : List LoopEvent × Bool :=
  timed_loop.go env fuel 0 (env.now 0) []

end Application

/-- Whether an event is an invocation of the callback. -/
def LoopEvent.isCall : LoopEvent → Bool
  | .call _ => true
  | _ => false

/-- Whether an event is an evaluation of the predicate. -/
def LoopEvent.isCheck : LoopEvent → Bool
  | .check _ => true
  | _ => false

/-- The events of the `k`-th round of a run: the predicate answers true, then
the round for the elapsed time between the readings `k` and `k + 1`. -/
def LoopEnv.roundEvents (env : LoopEnv) (k : Nat) : List LoopEvent :=
  [LoopEvent.check true] ++ Application.iteration (env.now (k + 1) - env.now k)

/-- A run for the scenarios: the predicate answers true twice, the clock reads
0, 0.4 ms, 2.9 ms. -/
def demoLoop : LoopEnv where
  conditionChecker k := decide (k < 2)
  now k := if k = 0 then 0 else if k = 1 then 400000 else 2900000

/-- A run for the scenarios: the predicate answers true once, the clock reads
0 and 1.5 ms. -/
def lateLoop : LoopEnv where
  conditionChecker k := decide (k < 1)
  now k := if k = 0 then 0 else 1500000

/-! ## `Application::loop` and the update thread

The two atomic flags `running` and `m_updating` are `std::atomic<bool>` read and
written with the default sequentially consistent order, so a run of the two
threads is an interleaving of their accesses to the flags.  A thread's position
is the next access it makes; the work between two accesses (the calls to
`_update`, `window.update`, `_render`, the clock and the sleep of `timed_loop`)
touches neither flag and is folded into the step that follows it.  `flip` is the
step of another context that stores false into `running`. -/

/-- Where `Application::loop` stands. -/
inductive MainPc where
  /-- Before `m_updating = false`. -/
  | clearFlag
  /-- Before `m_updateThread = std::thread(...)`. -/
  | startThread
  /-- In `while (!m_updating);`. -/
  | spin
  /-- Before an evaluation of `running && window.isOpen()` by `timed_loop`. -/
  | check
  /-- In the callback of `timed_loop`. -/
  | body
  /-- Before `running = false`. -/
  | stop
  /-- In `m_updateThread.join()`. -/
  | join
  /-- After `join()` has returned. -/
  | done
  deriving DecidableEq, Repr

/-- Where `Application::updateLoop` stands. -/
inductive UpdatePc where
  /-- The thread has not been created. -/
  | notStarted
  /-- Before an evaluation of `!!running` by `timed_loop`. -/
  | check
  /-- In the callback, before `m_updating = true`. -/
  | body
  /-- The thread function has returned. -/
  | exited
  deriving DecidableEq, Repr

/-- The shared flags, the two positions, and three counters and a record kept
for the statements. -/
structure RunState where
  running : Bool
  m_updating : Bool
  /-- The value of `window.isOpen()`. -/
  windowOpen : Bool
  main : MainPc
  update : UpdatePc
  /-- Evaluations of the update thread's predicate so far. -/
  updateChecks : Nat
  /-- Completed invocations of the update thread's callback so far. -/
  updateBodies : Nat
  /-- Completed invocations of the main loop's callback so far. -/
  mainBodies : Nat
  /-- Once another context has stored false into `running`: the values of
  `updateChecks` and `updateBodies` at that moment. -/
  flip : Option (Nat × Nat)
  deriving DecidableEq, Repr

/-- Who takes the next step. -/
inductive RunAction where
  /-- The main context; `closes` says whether the callback, when this step
  completes one, leaves the window closed. -/
  | main (closes : Bool)
  /-- The update thread. -/
  | update
  /-- Another context stores false into `running`. -/
  | flip
  deriving DecidableEq, Repr

namespace RunState

/-- The state when `run()` calls `loop()`: `running` is true, `m_updating` has
not been initialised. -/
def start (m_updating windowOpen : Bool) : RunState :=
  { running := true, m_updating := m_updating, windowOpen := windowOpen,
    main := .clearFlag, update := .notStarted,
    updateChecks := 0, updateBodies := 0, mainBodies := 0, flip := none }

/-- One step of `Application::loop` (lines 65 to 86). -/
def mainStep (s : RunState) (closes : Bool) : RunState :=
  match s.main with
  | .clearFlag => { s with m_updating := false, main := .startThread }
  | .startThread => { s with update := .check, main := .spin }
  | .spin => if s.m_updating then { s with main := .check } else s
  | .check =>
    if s.running && s.windowOpen then { s with main := .body } else { s with main := .stop }
  | .body =>
    { s with
      main := .check, mainBodies := s.mainBodies + 1, windowOpen := s.windowOpen && !closes }
  | .stop => { s with running := false, main := .join }
  | .join => if s.update = .exited then { s with main := .done } else s
  | .done => s

/-- One step of `Application::updateLoop`. -/
def updateStep (s : RunState) : RunState :=
  match s.update with
  | .notStarted => s
  | .check =>
    if s.running then { s with update := .body, updateChecks := s.updateChecks + 1 }
    else { s with update := .exited, updateChecks := s.updateChecks + 1 }
  | .body =>
    { s with m_updating := true, update := .check, updateBodies := s.updateBodies + 1 }
  | .exited => s

/-- The store of false into `running` by another context; only the first one
is recorded. -/
def flipStep (s : RunState) : RunState :=
  match s.flip with
  | some _ => { s with running := false }
  | none => { s with running := false, flip := some (s.updateChecks, s.updateBodies) }

/-- One step of the system. -/
def step (s : RunState) : RunAction → RunState
  | .main closes => s.mainStep closes
  | .update => s.updateStep
  | .flip => s.flipStep

/-- The state after the steps of a schedule, taken in order. -/
def run (s : RunState) (schedule : List RunAction) : RunState :=
  schedule.foldl step s

/-- Steps still ahead of the main context. -/
def mainRank : MainPc → Nat
  | .clearFlag => 8
  | .startThread => 7
  | .spin => 6
  | .body => 5
  | .check => 4
  | .stop => 3
  | .join => 2
  | .done => 0

/-- Steps still ahead of the update thread once `running` is false. -/
def updateRank : UpdatePc → Nat
  | .notStarted => 4
  | .body => 3
  | .check => 2
  | .exited => 0

/-- A bound on the steps that change the state once `running` is false. -/
def rank (s : RunState) : Nat := mainRank s.main + updateRank s.update

/-- The state after: `m_updating = false`, the thread is created, another
context stores false into `running`, the update thread evaluates its predicate. -/
def earlyStop : RunState :=
  (start true true).run [.main false, .main false, .flip, .update]

/-- A schedule in which `running` is set to false while the update thread is in
its first callback, run until `join()` has returned. -/
def lateStop : List RunAction :=
  [.main false, .main false, .update, .flip, .main false, .update, .main false, .update,
    .main false, .main false, .main false]

end RunState

/-- What holds in every state that `loop()` and the update thread can reach. -/
structure RunState.Inv (s : RunState) : Prop where
  flip_running : s.flip ≠ none → s.running = false
  running_false : s.running = false → s.flip ≠ none ∨ s.main = .join ∨ s.main = .done
  past_spin : s.main = .check ∨ s.main = .body ∨ s.main = .stop ∨ s.main = .join ∨
    s.main = .done → s.m_updating = true
  not_started : s.update = .notStarted ↔ s.main = .clearFlag ∨ s.main = .startThread
  not_started_counts : s.update = .notStarted → s.updateChecks = 0 ∧ s.updateBodies = 0
  at_check : s.update = .check → s.updateChecks = s.updateBodies
  at_body : s.update = .body → s.updateChecks = s.updateBodies + 1
  at_exit : s.update = .exited → s.updateChecks = s.updateBodies + 1
  flag_bodies : s.main ≠ .clearFlag → (1 ≤ s.updateBodies ↔ s.m_updating = true)
  flip_bounds : ∀ c b, s.flip = some (c, b) →
    c ≤ s.updateChecks ∧ b ≤ s.updateBodies ∧ b ≤ c ∧ s.updateBodies ≤ c
  flip_body : ∀ c b, s.flip = some (c, b) → s.update = .body → s.updateChecks = c
  main_bodies : 1 ≤ s.mainBodies → 1 ≤ s.updateBodies
  flip_first : ∀ c, s.flip = some (c, 0) → s.mainBodies = 0 ∧ s.main ≠ .body
  exit_unset : s.update = .exited → s.m_updating = false → s.flip = some (0, 0)
  joined : s.main = .done → s.update = .exited

/-! ## More vocabulary and scenarios for the `Shader` statements -/

/-- The handle `getOrCreate` yields for a stage kind: the handle stored under
the kind (0 when the key is absent, as `m_shaders[type]` inserts it) when the
driver takes it for a shader object, and otherwise the name `glCreateShader`
returns for the kind. -/
def Shader.stageHandle {G : Type} (gl : OpenGL G) (self : Shader) (w : World G)
    (type : ShaderType) : Nat :=
  if gl.IsShader w.gl ((self.m_shaders type).getD 0) then (self.m_shaders type).getD 0
  else (gl.CreateShader w.gl (Shader.typeToGl type)).1

/-- The shader of `demoLinked`. -/
def demoLinkedShader : Shader :=
  match demoLinked with
  | .ok r => r.1
  | .error _ => Shader.new

/-- The world of `demoLinked`. -/
def demoLinkedWorld : World RefState :=
  match demoLinked with
  | .ok r => r.2
  | .error _ => World.init

/-- A file name of 300 characters, more than a file system accepts in one path
component: the status query on it fails with `ENAMETOOLONG`. -/
def longName : String := String.mk (List.replicate 300 'a')

/-- A file system for the scenarios: `longName` is a path on which
`std::filesystem::exists` fails, `shaders/cloth.vert` holds `default_vertex`, and
nothing else exists. -/
def demoFS (path : String) : Shader.FileState :=
  if path = longName then .statFails
  else if path = "shaders/cloth.vert" then .readable default_vertex
  else .missing

/-! ## Lemmas -/

section Lemmas

open Shader

variable {G : Type} (gl : OpenGL G)

theorem foldl_measure {α β γ : Type} (f : β → α → β) (m : β → γ)
    (h : ∀ b a, m (f b a) = m b) (l : List α) (b : β) : m (l.foldl f b) = m b := by
  induction l generalizing b with
  | nil => rfl
  | cons a l ih => simp only [List.foldl_cons, ih, h]

/-! ### `getOrCreate` and the `addSource` overloads -/

theorem Shader.getOrCreate_total (self : Shader) (w : World G) (type : ShaderType) :
    ∃ r, getOrCreate gl self w type = .ok r := by
  unfold getOrCreate StdMap.index StdMap.atKey
  cases hm : self.m_shaders type <;> cases hq : gl.IsShader w.gl 0 <;>
    simp [hm, hq, glIsShader, StdMap.set]
  · split <;> simp
  · split <;> simp

theorem Shader.getOrCreate_spec (self : Shader) (w : World G) (type : ShaderType)
    (shaderId : Nat) (s1 : Shader) (w1 : World G)
    (hg : getOrCreate gl self w type = .ok (shaderId, s1, w1)) :
    s1.m_valid = self.m_valid ∧ s1.m_program = self.m_program ∧
    s1.m_uniforms = self.m_uniforms ∧ s1.m_attributes = self.m_attributes ∧
    (∀ t, t ≠ type → s1.m_shaders t = self.m_shaders t) ∧
    s1.m_shaders type = some shaderId ∧
    (∀ h, self.m_shaders type = some h → gl.IsShader w.gl h = true → s1 = self) := by
  unfold getOrCreate StdMap.index StdMap.atKey at hg
  cases hm : self.m_shaders type with
  | none =>
    simp only [hm] at hg
    split at hg
    · simp only [Except.ok.injEq, Prod.mk.injEq] at hg
      obtain ⟨rfl, rfl, rfl⟩ := hg
      simp [StdMap.set]
      intro t ht; simp [ht]
    · simp [StdMap.set] at hg
      obtain ⟨rfl, rfl, rfl⟩ := hg
      simp [StdMap.set]
      intro t ht; simp [ht]
  | some h0 =>
    simp only [hm] at hg
    split at hg
    · simp only [Except.ok.injEq, Prod.mk.injEq] at hg
      obtain ⟨rfl, rfl, rfl⟩ := hg
      simp [StdMap.set]
      refine ⟨fun t ht => by simp [ht], ?_⟩
      intro hq; simp_all [glIsShader]
    · simp [hm] at hg
      obtain ⟨rfl, rfl, rfl⟩ := hg
      simp [hm]

theorem Shader.compileStage_spec (self : Shader) (w : World G) (shaderId : Nat)
    (source : List String) :
    (compileStage gl self w shaderId source).1 =
      decide (gl.ShaderCompileStatus (gl.CompileShader (gl.ShaderSource w.gl shaderId source)
        shaderId) shaderId = GL_TRUE) ∧
    (compileStage gl self w shaderId source).2.1 =
      (if (compileStage gl self w shaderId source).1 then { self with m_valid := false }
        else self) := by
  unfold compileStage
  simp only [glShaderSource, glCompileShader, glGetShaderCompileStatus, World.call]
  split <;> simp_all

theorem Shader.addSource_vector_valid (self : Shader) (w : World G) (type : ShaderType)
    (source : List String) :
    ∃ b s' w', addSource_vector gl self w type source = .ok (b, s', w') ∧
      s'.m_valid = (if b then false else self.m_valid) := by
  obtain ⟨⟨shaderId, s1, w1⟩, hg⟩ := Shader.getOrCreate_total gl self w type
  have hs := Shader.getOrCreate_spec gl self w type shaderId s1 w1 hg
  have hc := (Shader.compileStage_spec gl s1 w1 shaderId source).2
  refine ⟨(compileStage gl s1 w1 shaderId source).1, (compileStage gl s1 w1 shaderId source).2.1,
    (compileStage gl s1 w1 shaderId source).2.2, by simp only [addSource_vector, hg], ?_⟩
  rw [hc]
  split <;> simp_all

theorem Shader.addSource_valid (self : Shader) (w : World G) (type : ShaderType)
    (source : String) :
    ∃ b s' w', addSource gl self w type source = .ok (b, s', w') ∧
      s'.m_valid = (if b then false else self.m_valid) :=
  Shader.addSource_vector_valid gl self w type [source]

/-! ### The scans of `compile` -/

theorem Shader.scanUniforms_fold (l : List Nat) (s : Shader) (w : World G) :
    ((l.foldl (scanUniformsStep gl) (s, w)).2.gl = w.gl ∧
     (l.foldl (scanUniformsStep gl) (s, w)).1.m_program = s.m_program ∧
     (l.foldl (scanUniformsStep gl) (s, w)).1.m_valid = s.m_valid ∧
     (l.foldl (scanUniformsStep gl) (s, w)).1.m_shaders = s.m_shaders ∧
     (l.foldl (scanUniformsStep gl) (s, w)).1.m_attributes = s.m_attributes) ∧
    ∀ name, (l.foldl (scanUniformsStep gl) (s, w)).1.m_uniforms name =
      if name ∈ l.map (gl.ActiveUniformName w.gl s.m_program)
      then some (gl.UniformLocation w.gl s.m_program name) else s.m_uniforms name := by
  induction l generalizing s w with
  | nil => simp
  | cons i l ih =>
    have h := ih (scanUniformsStep gl (s, w) i).1 (scanUniformsStep gl (s, w) i).2
    have e1 : (scanUniformsStep gl (s, w) i).2.gl = w.gl := rfl
    have e2 : (scanUniformsStep gl (s, w) i).1.m_program = s.m_program := rfl
    simp only [List.foldl_cons]
    rw [e1, e2] at h
    refine ⟨⟨h.1.1, h.1.2.1, h.1.2.2.1, h.1.2.2.2.1, h.1.2.2.2.2⟩, ?_⟩
    intro name
    rw [h.2 name]
    by_cases hn : name = gl.ActiveUniformName w.gl s.m_program i
    · subst hn
      simp [scanUniformsStep, StdMap.set, glGetActiveUniform, glGetUniformLocation, World.call]
    · simp [scanUniformsStep, StdMap.set, glGetActiveUniform, glGetUniformLocation, World.call,
        hn]

theorem Shader.scanAttributes_fold (l : List Nat) (s : Shader) (w : World G) :
    ((l.foldl (scanAttributesStep gl) (s, w)).2.gl = w.gl ∧
     (l.foldl (scanAttributesStep gl) (s, w)).1.m_program = s.m_program ∧
     (l.foldl (scanAttributesStep gl) (s, w)).1.m_valid = s.m_valid ∧
     (l.foldl (scanAttributesStep gl) (s, w)).1.m_shaders = s.m_shaders ∧
     (l.foldl (scanAttributesStep gl) (s, w)).1.m_uniforms = s.m_uniforms) ∧
    ∀ name, (l.foldl (scanAttributesStep gl) (s, w)).1.m_attributes name =
      if name ∈ l.map (gl.ActiveAttribName w.gl s.m_program)
      then some (gl.AttribLocation w.gl s.m_program name) else s.m_attributes name := by
  induction l generalizing s w with
  | nil => simp
  | cons i l ih =>
    have h := ih (scanAttributesStep gl (s, w) i).1 (scanAttributesStep gl (s, w) i).2
    have e1 : (scanAttributesStep gl (s, w) i).2.gl = w.gl := rfl
    have e2 : (scanAttributesStep gl (s, w) i).1.m_program = s.m_program := rfl
    simp only [List.foldl_cons]
    rw [e1, e2] at h
    refine ⟨⟨h.1.1, h.1.2.1, h.1.2.2.1, h.1.2.2.2.1, h.1.2.2.2.2⟩, ?_⟩
    intro name
    rw [h.2 name]
    by_cases hn : name = gl.ActiveAttribName w.gl s.m_program i
    · subst hn
      simp [scanAttributesStep, StdMap.set, glGetActiveAttrib, glGetAttribLocation, World.call]
    · simp [scanAttributesStep, StdMap.set, glGetActiveAttrib, glGetAttribLocation, World.call,
        hn]

theorem Shader.scanUniforms_spec (s : Shader) (w : World G) :
    ((scanUniforms gl s w).2.gl = w.gl ∧
     (scanUniforms gl s w).1.m_program = s.m_program ∧
     (scanUniforms gl s w).1.m_valid = s.m_valid ∧
     (scanUniforms gl s w).1.m_shaders = s.m_shaders ∧
     (scanUniforms gl s w).1.m_attributes = s.m_attributes) ∧
    ∀ name, (scanUniforms gl s w).1.m_uniforms name =
      if name ∈ activeUniformNames gl w.gl s.m_program
      then some (gl.UniformLocation w.gl s.m_program name) else s.m_uniforms name :=
  Shader.scanUniforms_fold gl _ s (glGetActiveUniforms gl w s.m_program).2

theorem Shader.scanAttributes_spec (s : Shader) (w : World G) :
    ((scanAttributes gl s w).2.gl = w.gl ∧
     (scanAttributes gl s w).1.m_program = s.m_program ∧
     (scanAttributes gl s w).1.m_valid = s.m_valid ∧
     (scanAttributes gl s w).1.m_shaders = s.m_shaders ∧
     (scanAttributes gl s w).1.m_uniforms = s.m_uniforms) ∧
    ∀ name, (scanAttributes gl s w).1.m_attributes name =
      if name ∈ activeAttribNames gl w.gl s.m_program
      then some (gl.AttribLocation w.gl s.m_program name) else s.m_attributes name :=
  Shader.scanAttributes_fold gl _ s (glGetActiveAttributes gl w s.m_program).2

theorem Shader.compile_eq (self : Shader) (w : World G) :
    compile gl self w =
      if (compileLink gl self w).1.m_valid then
        ((scanAttributes gl (scanUniforms gl (compileLink gl self w).1 (compileLink gl self w).2).1
            (scanUniforms gl (compileLink gl self w).1 (compileLink gl self w).2).2).1.m_valid,
          scanAttributes gl (scanUniforms gl (compileLink gl self w).1 (compileLink gl self w).2).1
            (scanUniforms gl (compileLink gl self w).1 (compileLink gl self w).2).2)
      else ((compileLink gl self w).1.m_valid, compileLink gl self w) := rfl

theorem Shader.compileLink_frame (self : Shader) (w : World G) :
    (compileLink gl self w).1.m_shaders = self.m_shaders ∧
    (compileLink gl self w).1.m_uniforms = self.m_uniforms ∧
    (compileLink gl self w).1.m_attributes = self.m_attributes := ⟨rfl, rfl, rfl⟩

theorem Shader.compile_ret (self : Shader) (w : World G) :
    (compile gl self w).1 = (compile gl self w).2.1.m_valid := by
  rw [Shader.compile_eq]
  split <;> rfl

/-! ### Counting `glLinkProgram` -/

theorem World.links_call (w : World G) (c : GLCall) (g : G) :
    (w.call c g).links = w.links + (if c.isLink then 1 else 0) := by
  cases hc : c.isLink <;>
    simp [World.links, World.call, List.countP_append, List.countP_cons, hc]

theorem World.links_print (w : World G) (line : String) : (w.print line).links = w.links := rfl

@[simp] theorem links_glIsShader (w : World G) (h : Nat) :
    (glIsShader gl w h).2.links = w.links := by
  simp [glIsShader, World.links_call, GLCall.isLink]

@[simp] theorem links_glIsProgram (w : World G) (p : Nat) :
    (glIsProgram gl w p).2.links = w.links := by
  simp [glIsProgram, World.links_call, GLCall.isLink]

@[simp] theorem links_glCreateProgram (w : World G) :
    (glCreateProgram gl w).2.links = w.links := by
  simp [glCreateProgram, World.links_call, GLCall.isLink]

@[simp] theorem links_glAttachShader (w : World G) (p h : Nat) :
    (glAttachShader gl w p h).links = w.links := by
  simp [glAttachShader, World.links_call, GLCall.isLink]

@[simp] theorem links_glDetachShader (w : World G) (p h : Nat) :
    (glDetachShader gl w p h).links = w.links := by
  simp [glDetachShader, World.links_call, GLCall.isLink]

@[simp] theorem links_glLinkProgram (w : World G) (p : Nat) :
    (glLinkProgram gl w p).links = w.links + 1 := by
  simp [glLinkProgram, World.links_call, GLCall.isLink]

@[simp] theorem links_glGetProgramLinkStatus (w : World G) (p : Nat) :
    (glGetProgramLinkStatus gl w p).2.links = w.links := by
  simp [glGetProgramLinkStatus, World.links_call, GLCall.isLink]

@[simp] theorem links_getProgramErrors (s : Shader) (w : World G) :
    (getProgramErrors gl s w).links = w.links := by
  simp [getProgramErrors, glGetProgramInfoLog, World.links_print, World.links_call,
    GLCall.isLink]

theorem Shader.attachStep_links (program : Nat) (w : World G) (e : ShaderType × Nat) :
    (attachStep gl program w e).links = w.links := by
  unfold attachStep
  dsimp only
  split <;> simp

theorem Shader.detachStep_links (program : Nat) (w : World G) (e : ShaderType × Nat) :
    (detachStep gl program w e).links = w.links := by
  unfold detachStep
  dsimp only
  split <;> simp

theorem Shader.scanUniforms_links (s : Shader) (w : World G) :
    (scanUniforms gl s w).2.links = w.links := by
  unfold scanUniforms
  rw [foldl_measure (scanUniformsStep gl) (fun sw => sw.2.links)]
  · simp [glGetActiveUniforms, World.links_call, GLCall.isLink]
  · intro b a
    simp [scanUniformsStep, glGetActiveUniform, glGetUniformLocation, World.links_call,
      GLCall.isLink]

theorem Shader.scanAttributes_links (s : Shader) (w : World G) :
    (scanAttributes gl s w).2.links = w.links := by
  unfold scanAttributes
  rw [foldl_measure (scanAttributesStep gl) (fun sw => sw.2.links)]
  · simp [glGetActiveAttributes, World.links_call, GLCall.isLink]
  · intro b a
    simp [scanAttributesStep, glGetActiveAttrib, glGetAttribLocation, World.links_call,
      GLCall.isLink]

theorem Shader.compileLink_links (s : Shader) (w : World G) :
    (compileLink gl s w).2.links = w.links + 1 := by
  unfold compileLink
  dsimp only
  rw [foldl_measure (detachStep gl _) World.links (Shader.detachStep_links gl _)]
  have h3 : ∀ (p : Nat) (w1 : World G),
      (glLinkProgram gl ((entries s.m_shaders).foldl (attachStep gl p) w1) p).links
        = w1.links + 1 := by
    intro p w1
    rw [links_glLinkProgram,
      foldl_measure (attachStep gl _) World.links (Shader.attachStep_links gl _)]
  split <;> split <;>
    simp only [links_getProgramErrors, links_glGetProgramLinkStatus, h3, links_glCreateProgram,
      links_glIsProgram]

theorem Shader.compile_links (s : Shader) (w : World G) :
    (compile gl s w).2.2.links = w.links + 1 := by
  rw [Shader.compile_eq]
  split
  · simp only [Shader.scanAttributes_links, Shader.scanUniforms_links,
      Shader.compileLink_links]
  · exact Shader.compileLink_links gl s w

/-! ### The handle and the calls of a failed `addSource` -/

theorem Shader.getOrCreate_handle (self : Shader) (w : World G) (type : ShaderType)
    (shaderId : Nat) (s1 : Shader) (w1 : World G)
    (hg : getOrCreate gl self w type = .ok (shaderId, s1, w1)) :
    shaderId = stageHandle gl self w type ∧
    (gl.IsShader w.gl ((self.m_shaders type).getD 0) = false →
      w1.gl = (gl.CreateShader w.gl (typeToGl type)).2 ∧
      GLCall.createShader (typeToGl type) ∈ w1.calls) ∧
    (gl.IsShader w.gl ((self.m_shaders type).getD 0) = true → w1.gl = w.gl) := by
  unfold getOrCreate StdMap.index StdMap.atKey at hg
  unfold stageHandle
  cases hm : self.m_shaders type with
  | none =>
    simp only [hm] at hg
    cases hq : gl.IsShader w.gl 0 <;>
      simp [glIsShader, glCreateShader, World.call, hq, StdMap.set] at hg <;>
      obtain ⟨rfl, rfl, rfl⟩ := hg <;> simp [hq]
  | some h0 =>
    simp only [hm] at hg
    cases hq : gl.IsShader w.gl h0 <;>
      simp [glIsShader, glCreateShader, World.call, hq, StdMap.set, hm] at hg <;>
      obtain ⟨rfl, rfl, rfl⟩ := hg <;> simp [hq]

theorem Shader.compileStage_calls (self : Shader) (w : World G) (shaderId : Nat)
    (source : List String) :
    GLCall.shaderSource shaderId source ∈ (compileStage gl self w shaderId source).2.2.calls ∧
    GLCall.compileShader shaderId ∈ (compileStage gl self w shaderId source).2.2.calls ∧
    (∀ c, c ∈ w.calls → c ∈ (compileStage gl self w shaderId source).2.2.calls) := by
  unfold compileStage
  dsimp only
  split <;>
    simp [glShaderSource, glCompileShader, glGetShaderCompileStatus, getShaderErrors,
      glGetShaderInfoLog, World.call, World.print] <;>
    intro c hc <;> simp [hc]

/-! ### `clear` -/

theorem Shader.clear_frame (self : Shader) (w : World G) :
    (clear gl self w).1.m_uniforms = self.m_uniforms ∧
    (clear gl self w).1.m_attributes = self.m_attributes := ⟨rfl, rfl⟩

end Lemmas

/-! ## The claims -/

section Claims

open Shader

variable {G : Type} (gl : OpenGL G)

/-- C1 (amended): when the stage compilation fails, that is, the compile status
read back for the handle `getOrCreate` yields is not `GL_TRUE`, `addSource`
returns false and leaves the valid flag, the program handle (so `id() const`
returns what it returned before) and the cached uniform and attribute maps as
they were.  The stage map is unchanged at every other stage kind.  At the given
kind it holds the handle `getOrCreate` yielded, which is the handle that was
given the source and compiled: the handle already stored under the kind when
the driver takes that for a shader object, and then the whole stage map is
unchanged; otherwise the name `glCreateShader` returned in this call. -/
theorem addSource_failure_frame (self : Shader) (w : World G) (type : ShaderType)
    (source : String)
    (hfail : ∀ shaderId s1 w1, getOrCreate gl self w type = .ok (shaderId, s1, w1) →
      gl.ShaderCompileStatus
        (gl.CompileShader (gl.ShaderSource w1.gl shaderId [source]) shaderId) shaderId
          ≠ GL_TRUE) :
    ∃ s' w1 w', getOrCreate gl self w type = .ok (stageHandle gl self w type, s', w1) ∧
      addSource gl self w type source = .ok (false, s', w') ∧
      s'.m_valid = self.m_valid ∧ s'.m_program = self.m_program ∧
      id_const s' = id_const self ∧
      s'.m_uniforms = self.m_uniforms ∧ s'.m_attributes = self.m_attributes ∧
      (∀ t, t ≠ type → s'.m_shaders t = self.m_shaders t) ∧
      s'.m_shaders type = some (stageHandle gl self w type) ∧
      (∀ h, self.m_shaders type = some h → gl.IsShader w.gl h = true →
        stageHandle gl self w type = h ∧ s'.m_shaders = self.m_shaders) ∧
      (gl.IsShader w.gl ((self.m_shaders type).getD 0) = false →
        stageHandle gl self w type = (gl.CreateShader w.gl (typeToGl type)).1 ∧
        GLCall.createShader (typeToGl type) ∈ w'.calls) ∧
      GLCall.shaderSource (stageHandle gl self w type) [source] ∈ w'.calls ∧
      GLCall.compileShader (stageHandle gl self w type) ∈ w'.calls := by
  obtain ⟨⟨shaderId, s1, w1⟩, hg⟩ := Shader.getOrCreate_total gl self w type
  have hs := Shader.getOrCreate_spec gl self w type shaderId s1 w1 hg
  have hh := Shader.getOrCreate_handle gl self w type shaderId s1 w1 hg
  have hc := Shader.compileStage_spec gl s1 w1 shaderId [source]
  have hk := Shader.compileStage_calls gl s1 w1 shaderId [source]
  have hid : shaderId = stageHandle gl self w type := hh.1
  have h1 : (compileStage gl s1 w1 shaderId [source]).1 = false := by
    rw [hc.1]; simpa using hfail shaderId s1 w1 hg
  have h2 : (compileStage gl s1 w1 shaderId [source]).2.1 = s1 := by
    rw [hc.2, h1]; simp
  rw [← hid]
  refine ⟨s1, w1, (compileStage gl s1 w1 shaderId [source]).2.2, hg, ?_, hs.1, hs.2.1, ?_,
    hs.2.2.1, hs.2.2.2.1, hs.2.2.2.2.1, hs.2.2.2.2.2.1, ?_, ?_, hk.1, hk.2.1⟩
  · simp only [addSource, hg]
    exact congrArg Except.ok (Prod.ext h1 (Prod.ext h2 rfl))
  · simp only [id_const, hs.1, hs.2.1]
  · intro h hm hq
    refine ⟨?_, by rw [hs.2.2.2.2.2.2 h hm hq]⟩
    rw [hid]; simp [stageHandle, hm, hq]
  · intro hq
    refine ⟨?_, hk.2.2 _ (hh.2.1 hq).2⟩
    rw [hid]; simp [stageHandle, hq]

/-- C1 witness: a text that is not GLSL given to the vertex stage of the linked
shader of the reference driver.  The vertex kind maps to the live handle 1, which
is the handle compiled, and the stage map is unchanged. -/
theorem addSource_failure_frame_witness :
    demoLinked = .ok (demoLinkedShader, demoLinkedWorld) ∧
    demoLinkedShader.m_shaders .vertex = some 1 ∧
    demoGL.IsShader demoLinkedWorld.gl 1 = true ∧
    stageHandle demoGL demoLinkedShader demoLinkedWorld .vertex = 1 ∧
    ∃ s' w1 w', getOrCreate demoGL demoLinkedShader demoLinkedWorld .vertex
          = .ok (stageHandle demoGL demoLinkedShader demoLinkedWorld .vertex, s', w1) ∧
      addSource demoGL demoLinkedShader demoLinkedWorld .vertex not_glsl = .ok (false, s', w') ∧
      s'.m_valid = demoLinkedShader.m_valid ∧ s'.m_program = demoLinkedShader.m_program ∧
      id_const s' = id_const demoLinkedShader ∧
      s'.m_uniforms = demoLinkedShader.m_uniforms ∧
      s'.m_attributes = demoLinkedShader.m_attributes ∧
      (∀ t, t ≠ ShaderType.vertex → s'.m_shaders t = demoLinkedShader.m_shaders t) ∧
      s'.m_shaders .vertex = some (stageHandle demoGL demoLinkedShader demoLinkedWorld .vertex) ∧
      (∀ h, demoLinkedShader.m_shaders .vertex = some h →
        demoGL.IsShader demoLinkedWorld.gl h = true →
        stageHandle demoGL demoLinkedShader demoLinkedWorld .vertex = h ∧
        s'.m_shaders = demoLinkedShader.m_shaders) ∧
      (demoGL.IsShader demoLinkedWorld.gl ((demoLinkedShader.m_shaders .vertex).getD 0) = false →
        stageHandle demoGL demoLinkedShader demoLinkedWorld .vertex
          = (demoGL.CreateShader demoLinkedWorld.gl (typeToGl .vertex)).1 ∧
        GLCall.createShader (typeToGl .vertex) ∈ w'.calls) ∧
      GLCall.shaderSource (stageHandle demoGL demoLinkedShader demoLinkedWorld .vertex)
        [not_glsl] ∈ w'.calls ∧
      GLCall.compileShader (stageHandle demoGL demoLinkedShader demoLinkedWorld .vertex)
        ∈ w'.calls :=
  ⟨rfl, by decide, by decide, by decide,
    addSource_failure_frame demoGL demoLinkedShader demoLinkedWorld .vertex not_glsl (by
      intro shaderId s1 w1 h
      have e : getOrCreate demoGL demoLinkedShader demoLinkedWorld .vertex
          = .ok (1, demoLinkedShader, (glIsShader demoGL demoLinkedWorld 1).2) := rfl
      rw [e] at h
      cases h
      decide)⟩

/-- C1 counterexample: on a freshly constructed shader, `addSource(vertex, text)`
with a text that does not compile returns false, yet the stage map, which had no
vertex key, now maps vertex to the new handle 1. -/
theorem addSource_failure_changes_stage_map :
    ∃ s' w', addSource demoGL Shader.new World.init .vertex not_glsl = .ok (false, s', w') ∧
      Shader.new.m_shaders .vertex = none ∧ s'.m_shaders .vertex = some 1 :=
  ⟨_, _, rfl, rfl, rfl⟩

/-- C2 (amended): an `addSource` call (either overload) always returns, and
leaves `valid()` false when it returns true and as it was when it returns
false.  `remove` of a stage kind that is not in the stage map leaves the whole
state unchanged; `remove` of a kind that is in the map erases the key and leaves
`valid()` false when the stored handle is a live shader object, and as it was
when it is not. -/
theorem stage_mutation_validity (self : Shader) (w : World G) (type : ShaderType)
    (source : String) (sources : List String) :
    (∃ b s' w', addSource gl self w type source = .ok (b, s', w') ∧
      s'.m_valid = (if b then false else self.m_valid)) ∧
    (∃ b s' w', addSource_vector gl self w type sources = .ok (b, s', w') ∧
      s'.m_valid = (if b then false else self.m_valid)) ∧
    (self.m_shaders type = none → remove gl self w type = .ok (self, w)) ∧
    (∀ h, self.m_shaders type = some h →
      ∃ s' w', remove gl self w type = .ok (s', w') ∧
        s'.m_shaders = StdMap.erase self.m_shaders type ∧
        s'.m_valid = (if gl.IsShader w.gl h then false else self.m_valid)) := by
  refine ⟨Shader.addSource_valid gl self w type source,
    Shader.addSource_vector_valid gl self w type sources, ?_, ?_⟩
  · intro hm
    simp [remove, StdMap.contains, hm]
  · intro h hm
    cases hq : gl.IsShader w.gl h <;>
      simp [remove, StdMap.contains, StdMap.atKey, hm, glIsShader, hq]

/-- C2 counterexample: on a linked, valid shader with a vertex and a fragment
stage, `addSource(geometry, text)` with a text that does not compile returns
false and adds the key geometry to the stage map, and `valid()` is still true. -/
theorem failed_addSource_adds_stage_keeps_valid :
    ∃ s w, demoLinked = .ok (s, w) ∧ s.valid = true ∧
      ∃ s' w', addSource demoGL s w .geometry not_glsl = .ok (false, s', w') ∧
        s.m_shaders .geometry = none ∧ s'.m_shaders .geometry = some 4 ∧
        s'.valid = true :=
  ⟨_, _, rfl, rfl, _, _, rfl, rfl, rfl, rfl⟩

/-- What a successful `compile()` does to the caches: the shader is valid, every
active uniform (attribute) name the linked program reports is a key of the
cached uniform (attribute) map, mapped to the location the program reports for
it, and the entry under every other name is what it was before the call: the
scans assign entries and erase none. -/
theorem compile_success_caches (self : Shader) (w : World G)
    (h : (compile gl self w).1 = true) :
    (compile gl self w).2.1.m_valid = true ∧
    (∀ name, (compile gl self w).2.1.m_uniforms name =
      if name ∈ activeUniformNames gl (compile gl self w).2.2.gl (compile gl self w).2.1.m_program
      then some (gl.UniformLocation (compile gl self w).2.2.gl
        (compile gl self w).2.1.m_program name)
      else self.m_uniforms name) ∧
    (∀ name, (compile gl self w).2.1.m_attributes name =
      if name ∈ activeAttribNames gl (compile gl self w).2.2.gl (compile gl self w).2.1.m_program
      then some (gl.AttribLocation (compile gl self w).2.2.gl
        (compile gl self w).2.1.m_program name)
      else self.m_attributes name) := by
  refine ⟨by rw [← Shader.compile_ret]; exact h, ?_⟩
  have hf := Shader.compileLink_frame gl self w
  rw [Shader.compile_eq] at h ⊢
  generalize compileLink gl self w = r at h hf ⊢
  obtain ⟨s2, w5⟩ := r
  obtain ⟨-, hu, ha⟩ := hf
  by_cases hv : s2.m_valid = true
  · have hU := Shader.scanUniforms_spec gl s2 w5
    have hA := Shader.scanAttributes_spec gl (scanUniforms gl s2 w5).1 (scanUniforms gl s2 w5).2
    simp only [hv, if_true]
    simp only [hA.1.1, hA.1.2.1, hA.1.2.2.2.2, hU.1.1, hU.1.2.1]
    refine ⟨fun name => ?_, fun name => ?_⟩
    · rw [hU.2 name, hu]
    · rw [hA.2 name, hU.1.1, hU.1.2.1, hU.1.2.2.2.2, ha]
  · simp [hv] at h

/-- An instance of `compile_success_caches`: the first `compile()` of a shader
holding `default_vertex` and `default_fragment`. -/
theorem compile_success_caches_witness :
    ∃ s w, demoStaged = .ok (s, w) ∧ (compile demoGL s w).1 = true ∧
      (compile demoGL s w).2.1.m_valid = true ∧
      (∀ name, (compile demoGL s w).2.1.m_uniforms name =
        if name ∈ activeUniformNames demoGL (compile demoGL s w).2.2.gl
          (compile demoGL s w).2.1.m_program
        then some (demoGL.UniformLocation (compile demoGL s w).2.2.gl
          (compile demoGL s w).2.1.m_program name)
        else s.m_uniforms name) ∧
      (∀ name, (compile demoGL s w).2.1.m_attributes name =
        if name ∈ activeAttribNames demoGL (compile demoGL s w).2.2.gl
          (compile demoGL s w).2.1.m_program
        then some (demoGL.AttribLocation (compile demoGL s w).2.2.gl
          (compile demoGL s w).2.1.m_program name)
        else s.m_attributes name) :=
  ⟨_, _, rfl, by decide, compile_success_caches demoGL _ _ (by decide)⟩

/-- C3 (the code at the failing input): a shader is linked with `default_vertex`
(active uniform `MVP`), its vertex stage is replaced by `plain_vertex` (no
uniform) and it is compiled again.  The second `compile()` returns true and the
shader is valid; the linked program reports no active uniform and answers -1 for
the location of `MVP`; the cached uniform map still has the key `MVP`, and
`getUniform("MVP")` returns the location 0 of the earlier link. -/
theorem compile_keeps_stale_uniform :
    ∃ s w, demoLinked = .ok (s, w) ∧
      ∃ s1 w1, addSource demoGL s w .vertex plain_vertex = .ok (true, s1, w1) ∧
        (compile demoGL s1 w1).1 = true ∧
        (compile demoGL s1 w1).2.1.valid = true ∧
        activeUniformNames demoGL (compile demoGL s1 w1).2.2.gl
          (compile demoGL s1 w1).2.1.m_program = [] ∧
        demoGL.UniformLocation (compile demoGL s1 w1).2.2.gl
          (compile demoGL s1 w1).2.1.m_program "MVP" = -1 ∧
        (compile demoGL s1 w1).2.1.m_uniforms "MVP" = some 0 ∧
        getUniform (compile demoGL s1 w1).2.1 "MVP" = .ok 0 :=
  ⟨_, _, rfl, _, _, rfl, by decide, by decide, by decide, by decide, by decide, rfl⟩

/-- C4 (the code at the failing input): a shader linked with `default_vertex`
and `default_fragment` caches `MVP` and `vPos` at location 0.  After `clear()`
the stage map is empty, the program handle is 0 and `valid()` is false, but
`getUniform("MVP")` and `getAttribute("vPos")` still return 0, where a freshly
constructed shader returns -1. -/
theorem clear_keeps_cached_locations :
    ∃ s w, demoLinked = .ok (s, w) ∧
      (clear demoGL s w).1.m_shaders = StdMap.empty ∧
      (clear demoGL s w).1.m_program = 0 ∧
      (clear demoGL s w).1.valid = false ∧
      getUniform (clear demoGL s w).1 "MVP" = .ok 0 ∧
      getAttribute (clear demoGL s w).1 "vPos" = .ok 0 ∧
      getUniform Shader.new "MVP" = .ok (-1) ∧
      getAttribute Shader.new "vPos" = .ok (-1) :=
  ⟨_, _, rfl, rfl, rfl, rfl, rfl, rfl, rfl, rfl⟩

/-- C5: `clear()` is idempotent.  The shader after a second `clear()` equals the
shader after the first; after each, `valid()` is false, the stage map is empty
and the program handle is 0.  Given that the driver does not take the name 0 for
a program object, the second call issues the single query `glIsProgram(0)` and
no delete, and leaves the driver state as it was. -/
theorem clear_idempotent (self : Shader) (w : World G)
    (h0 : gl.IsProgram (clear gl self w).2.gl 0 = false) :
    (clear gl (clear gl self w).1 (clear gl self w).2).1 = (clear gl self w).1 ∧
    ((clear gl self w).1.m_valid = false ∧ (clear gl self w).1.m_shaders = StdMap.empty ∧
      (clear gl self w).1.m_program = 0) ∧
    ((clear gl (clear gl self w).1 (clear gl self w).2).1.m_valid = false ∧
      (clear gl (clear gl self w).1 (clear gl self w).2).1.m_shaders = StdMap.empty ∧
      (clear gl (clear gl self w).1 (clear gl self w).2).1.m_program = 0) ∧
    (clear gl (clear gl self w).1 (clear gl self w).2).2.gl = (clear gl self w).2.gl ∧
    (clear gl (clear gl self w).1 (clear gl self w).2).2.calls =
      (clear gl self w).2.calls ++ [GLCall.isProgram 0] := by
  generalize hc : clear gl self w = c at h0 ⊢
  have h1 : c.1.m_valid = false ∧ c.1.m_shaders = StdMap.empty ∧ c.1.m_program = 0 := by
    rw [← hc]; exact ⟨rfl, rfl, rfl⟩
  obtain ⟨s, w1⟩ := c
  obtain ⟨hv, hs, hp⟩ := h1
  simp only at hv hs hp h0
  have he : entries (StdMap.empty : StdMap ShaderType Nat) = [] := rfl
  refine ⟨?_, ⟨hv, hs, hp⟩, ⟨rfl, rfl, rfl⟩, ?_, ?_⟩
  · cases s; simp_all [clear]
  · simp [clear, hs, hp, he, glIsProgram, h0, World.call]
  · simp [clear, hs, hp, he, glIsProgram, h0, World.call]

/-- C5 witness: `clear()` twice on a linked shader of the reference driver. -/
theorem clear_idempotent_witness :
    ∃ s w, demoLinked = .ok (s, w) ∧
      demoGL.IsProgram (clear demoGL s w).2.gl 0 = false ∧
      (clear demoGL (clear demoGL s w).1 (clear demoGL s w).2).1 = (clear demoGL s w).1 ∧
      (clear demoGL (clear demoGL s w).1 (clear demoGL s w).2).2.calls =
        (clear demoGL s w).2.calls ++ [GLCall.isProgram 0] :=
  ⟨_, _, rfl, by decide,
    (clear_idempotent demoGL _ _ (by decide)).1,
    (clear_idempotent demoGL _ _ (by decide)).2.2.2.2⟩

/-- C6: the non-const `id()` on a valid shader returns the program handle and
changes neither the object nor the world (no GL call, so no `compile()`).  On a
shader that is not valid its result is that of one `compile()` followed by
`m_valid ? m_program : 0` on the compiled object, and the trace gains exactly
one `glLinkProgram`.  The const `id()` returns the program handle when valid and
0 otherwise, and the two agree on every valid shader. -/
theorem id_lazy_compile (self : Shader) (w : World G) :
    (self.m_valid = true → Shader.id gl self w = (self.m_program, self, w)) ∧
    (self.m_valid = false →
      Shader.id gl self w =
        (if (compile gl self w).2.1.m_valid then (compile gl self w).2.1.m_program else 0,
          (compile gl self w).2.1, (compile gl self w).2.2) ∧
      (Shader.id gl self w).2.2.links = w.links + 1) ∧
    id_const self = (if self.m_valid then self.m_program else 0) ∧
    (self.m_valid = true → (Shader.id gl self w).1 = id_const self) := by
  refine ⟨?_, ?_, rfl, ?_⟩
  · intro hv; simp [Shader.id, hv]
  · intro hv
    have e : Shader.id gl self w =
        (if (compile gl self w).2.1.m_valid then (compile gl self w).2.1.m_program else 0,
          (compile gl self w).2.1, (compile gl self w).2.2) := by
      simp [Shader.id, hv]
    refine ⟨e, ?_⟩
    rw [e]
    exact Shader.compile_links gl self w
  · intro hv; simp [Shader.id, id_const, hv]

/-- C7: `typeFromString` returns vertex, fragment, compute, geometry or
tesselation exactly on the strings "vertex", "fragment", "compute", "geometry",
"tesselation" (whole string, case-sensitive), and `Type::none` on every other
string, the empty string included.  It is a total function. -/
theorem typeFromString_spec (s : String) :
    (typeFromString s = .vertex ↔ s = "vertex") ∧
    (typeFromString s = .fragment ↔ s = "fragment") ∧
    (typeFromString s = .compute ↔ s = "compute") ∧
    (typeFromString s = .geometry ↔ s = "geometry") ∧
    (typeFromString s = .tesselation ↔ s = "tesselation") ∧
    (typeFromString s = .none ↔
      s ≠ "vertex" ∧ s ≠ "fragment" ∧ s ≠ "compute" ∧ s ≠ "geometry" ∧ s ≠ "tesselation") ∧
    typeFromString "" = .none ∧ typeFromString "Vertex" = .none ∧
    typeFromString "vertex " = .none := by
  unfold typeFromString
  refine ⟨?_, ?_, ?_, ?_, ?_, ?_, by decide, by decide, by decide⟩ <;>
    (by_cases h1 : s = "vertex" <;> by_cases h2 : s = "fragment" <;>
      by_cases h3 : s = "compute" <;> by_cases h4 : s = "geometry" <;>
      by_cases h5 : s = "tesselation" <;> simp_all)

/-- C8: `getUniform(name)` (resp. `getAttribute(name)`) always returns, never
throws: -1 when the name is not a key of the cached uniform (resp. attribute)
map, the cached location otherwise.  Both are const member functions: functions
of the object that yield no new object state. -/
theorem lookup_total (self : Shader) (name : String) :
    getUniform self name = .ok (match self.m_uniforms name with
      | some location => location
      | none => -1) ∧
    getAttribute self name = .ok (match self.m_attributes name with
      | some location => location
      | none => -1) := by
  constructor
  · cases h : self.m_uniforms name <;> simp [getUniform, StdMap.contains, StdMap.atKey, h]
  · cases h : self.m_attributes name <;> simp [getAttribute, StdMap.contains, StdMap.atKey, h]

/-- What `addFile` does on the three outcomes on which it returns: for a path
that `std::filesystem::exists` answers false for, or that exists and cannot be
opened, it returns false, leaves the shader object as it was and makes no GL
call (so no `addSource`); it only prints a line.  For a readable file it is
exactly `addSource(type, contents)`: same return value, same object, same world. -/
theorem addFile_spec (fs : String → FileState) (self : Shader) (w : World G)
    (type : ShaderType) (filePath : String) :
    ((fs filePath = .missing ∨ ∃ err, fs filePath = .unopenable err) →
      ∃ w', addFile gl fs self w type filePath = .ok (false, self, w') ∧
        w'.gl = w.gl ∧ w'.calls = w.calls) ∧
    (∀ contents, fs filePath = .readable contents →
      addFile gl fs self w type filePath = addSource gl self w type contents) := by
  constructor
  · rintro (h | ⟨err, h⟩) <;> simp [addFile, h, World.print]
  · intro contents h
    simp [addFile, h]

/-- C9 (the code at the failing input): `longName` names no file and cannot be
opened, and `std::filesystem::exists` fails on it.  `addFile(vertex, longName)`
does not return false: it leaves by `filesystem_error`.  On a path that `exists`
answers false for, the same call returns false with the object unchanged. -/
theorem addFile_throws_when_exists_fails :
    demoFS longName = .statFails ∧
    addFile demoGL demoFS Shader.new World.init .vertex longName = .error .filesystem_error ∧
    demoFS "/nonexistent/path.vert" = .missing ∧
    ∃ w', addFile demoGL demoFS Shader.new World.init .vertex "/nonexistent/path.vert"
      = .ok (false, Shader.new, w') :=
  ⟨by simp [demoFS], by simp [addFile, demoFS], by decide, _, rfl⟩

/-- C10: `getDefaultShader` either returns a shader whose `valid()` is true or
aborts.  When the shared shader is already valid at the call, the call returns
it with the object and the world unchanged (no GL call, so no `addSource` and no
`compile`); in particular this holds for every call made with the shared shader
in the state a previous call returned. -/
theorem getDefaultShader_spec (default_shader : Shader) (w : World G) :
    ((∃ s' w', getDefaultShader gl default_shader w = .ok (s', w') ∧ s'.valid = true) ∨
      getDefaultShader gl default_shader w = .error .abort) ∧
    (default_shader.valid = true →
      getDefaultShader gl default_shader w = .ok (default_shader, w)) ∧
    (∀ s' w', getDefaultShader gl default_shader w = .ok (s', w') →
      ∀ w2 : World G, getDefaultShader gl s' w2 = .ok (s', w2)) := by
  have hvalid : ∀ (d : Shader) (v : World G), d.valid = true →
      getDefaultShader gl d v = .ok (d, v) := by
    intro d v hv
    simp [getDefaultShader, hv]
  have hfirst : (∃ s' w', getDefaultShader gl default_shader w = .ok (s', w') ∧ s'.valid = true) ∨
      getDefaultShader gl default_shader w = .error .abort := by
    by_cases hv : default_shader.valid = true
    · exact Or.inl ⟨_, _, hvalid _ _ hv, hv⟩
    · obtain ⟨b1, s1, w1, h1, -⟩ := Shader.addSource_valid gl default_shader w .vertex default_vertex
      obtain ⟨b2, s2, w2, h2, -⟩ := Shader.addSource_valid gl s1 w1 .fragment default_fragment
      simp only [getDefaultShader, hv, h1, h2]
      by_cases hc : (compile gl s2 w2).2.1.valid = true
      · left; exact ⟨(compile gl s2 w2).2.1, (compile gl s2 w2).2.2, by simp [hc], hc⟩
      · right; simp [hc]
  refine ⟨hfirst, hvalid _ _, ?_⟩
  intro s' w' h w2
  apply hvalid
  rcases hfirst with ⟨s2, w3, h2, hv⟩ | h2
  · rw [h] at h2
    simp only [Except.ok.injEq, Prod.mk.injEq] at h2
    rw [h2.1]; exact hv
  · rw [h] at h2; cases h2

end Claims

/-! ## Lemmas on `timed_loop` -/

section LoopLemmas

open Application

theorem duration_cast_ms_capped (e : Int) :
    duration_cast_ms (capped e) = if e < LOOP_TRESHOLD then 1 else e / 1000000 := by
  unfold duration_cast_ms capped LOOP_TRESHOLD TICKS_PER_MS
  split
  · decide
  · rename_i h
    rw [Int.tdiv_eq_ediv (by omega) (by decide)]

theorem one_le_duration_cast_ms_capped (e : Int) : 1 ≤ duration_cast_ms (capped e) := by
  rw [duration_cast_ms_capped]
  unfold LOOP_TRESHOLD TICKS_PER_MS
  split <;> omega

theorem timed_loop.go_calls (env : LoopEnv) (fuel k : Nat) (last : Int) (trace : List LoopEvent)
    (ht : ∀ ms, LoopEvent.call ms ∈ trace → 1 ≤ ms) :
    ∀ ms, LoopEvent.call ms ∈ (timed_loop.go env fuel k last trace).1 → 1 ≤ ms := by
  induction fuel generalizing k last trace with
  | zero => simpa [timed_loop.go] using ht
  | succ fuel ih =>
    unfold timed_loop.go
    split
    · apply ih
      intro ms hms
      simp only [iteration, List.mem_append, List.mem_singleton] at hms
      rcases hms with ((h | h) | (h | h))
      · exact ht ms h
      · cases h
      · split at h <;> simp at h
      · cases h; exact one_le_duration_cast_ms_capped _
    · intro ms hms
      simp only [List.mem_append, List.mem_singleton] at hms
      rcases hms with h | h
      · exact ht ms h
      · cases h

theorem timed_loop.go_trace (env : LoopEnv) (n : Nat) :
    ∀ (fuel k : Nat) (trace : List LoopEvent),
      (∀ i, i < n → env.conditionChecker (k + i) = true) →
      env.conditionChecker (k + n) = false → n < fuel →
      timed_loop.go env fuel k (env.now k) trace =
        (trace ++ ((List.range n).map (fun i => env.roundEvents (k + i))).flatten
          ++ [LoopEvent.check false], true) := by
  induction n with
  | zero =>
    intro fuel k trace _ h0 hf
    obtain ⟨f, rfl⟩ : ∃ f, fuel = f + 1 := ⟨fuel - 1, by omega⟩
    rw [Nat.add_zero] at h0
    simp [timed_loop.go, h0]
  | succ n ih =>
    intro fuel k trace ht hfalse hf
    obtain ⟨f, rfl⟩ : ∃ f, fuel = f + 1 := ⟨fuel - 1, by omega⟩
    have hk : env.conditionChecker k = true := by simpa using ht 0 (by omega)
    unfold timed_loop.go
    simp only [hk, if_true]
    rw [ih f (k + 1) _ (fun i hi => by
      have := ht (i + 1) (by omega)
      rwa [show k + (i + 1) = k + 1 + i by omega] at this)
      (by rwa [show k + (n + 1) = k + 1 + n by omega] at hfalse) (by omega)]
    simp only [List.range_succ_eq_map, List.map_cons, List.map_map, List.flatten_cons,
      LoopEnv.roundEvents, Nat.add_zero, List.append_assoc, Prod.mk.injEq, and_true]
    congr 3
    simp only [List.append_cancel_left_eq, List.append_cancel_right_eq]
    congr 2
    funext i
    simp [Function.comp, Nat.add_assoc, Nat.add_comm 1 i]

theorem iteration_counts (e : Int) :
    (iteration e).countP LoopEvent.isCall = 1 ∧ (iteration e).countP LoopEvent.isCheck = 0 := by
  unfold iteration
  split <;> simp [LoopEvent.isCall, LoopEvent.isCheck]

theorem roundEvents_counts (env : LoopEnv) (n : Nat) :
    (((List.range n).map env.roundEvents).flatten).countP LoopEvent.isCall = n ∧
    (((List.range n).map env.roundEvents).flatten).countP LoopEvent.isCheck = n := by
  induction n with
  | zero => simp
  | succ n ih =>
    have h := iteration_counts (env.now (n + 1) - env.now n)
    simp only [List.range_succ, List.map_append, List.flatten_append, List.countP_append, ih,
      List.map_cons, List.map_nil, List.flatten_cons, List.flatten_nil, List.append_nil,
      LoopEnv.roundEvents, h.1, h.2]
    simp [LoopEvent.isCall, LoopEvent.isCheck]

end LoopLemmas

/-! ## Lemmas on the run loop -/

section RunLemmas

open RunState

theorem RunState.inv_start (m w : Bool) : (start m w).Inv := by
  constructor <;> simp [start]

set_option maxHeartbeats 4000000 in
theorem RunState.inv_mainStep (s : RunState) (closes : Bool) (h : s.Inv) :
    (s.mainStep closes).Inv := by
  obtain ⟨h1, h2, h3, h4, h5, h6, h7, h8, h9, h10, h11, h12, h13, h14, h15⟩ := h
  obtain ⟨running, upd, wopen, main, update, checks, bodies, mbodies, flip⟩ := s
  simp only at h1 h2 h3 h4 h5 h6 h7 h8 h9 h10 h11 h12 h13 h14 h15
  cases main <;> cases update <;> simp at h4 <;>
    rcases flip with _ | ⟨c, b⟩ <;> cases running <;> simp at h1 h2 <;>
    cases upd <;> simp at h3 <;>
    simp [mainStep] at * <;> (try split) <;> constructor <;> simp <;> omega

set_option maxHeartbeats 4000000 in
theorem RunState.inv_updateStep (s : RunState) (h : s.Inv) : s.updateStep.Inv := by
  obtain ⟨h1, h2, h3, h4, h5, h6, h7, h8, h9, h10, h11, h12, h13, h14, h15⟩ := h
  obtain ⟨running, upd, wopen, main, update, checks, bodies, mbodies, flip⟩ := s
  simp only at h1 h2 h3 h4 h5 h6 h7 h8 h9 h10 h11 h12 h13 h14 h15
  cases main <;> cases update <;> simp at h4 <;>
    rcases flip with _ | ⟨c, b⟩ <;> cases running <;> simp at h1 h2 <;>
    cases upd <;> simp at h3 <;>
    simp [updateStep] at * <;> constructor <;> simp <;> omega

set_option maxHeartbeats 4000000 in
theorem RunState.inv_flipStep (s : RunState) (h : s.Inv) : s.flipStep.Inv := by
  obtain ⟨h1, h2, h3, h4, h5, h6, h7, h8, h9, h10, h11, h12, h13, h14, h15⟩ := h
  obtain ⟨running, upd, wopen, main, update, checks, bodies, mbodies, flip⟩ := s
  simp only at h1 h2 h3 h4 h5 h6 h7 h8 h9 h10 h11 h12 h13 h14 h15
  cases main <;> cases update <;> simp at h4 <;>
    rcases flip with _ | ⟨c, b⟩ <;> cases running <;> simp at h1 h2 <;>
    cases upd <;> simp at h3 <;>
    simp [flipStep] at * <;> constructor <;> simp <;> omega

theorem RunState.inv_step (s : RunState) (a : RunAction) (h : s.Inv) : (s.step a).Inv := by
  cases a with
  | main closes => exact RunState.inv_mainStep s closes h
  | update => exact RunState.inv_updateStep s h
  | flip => exact RunState.inv_flipStep s h

theorem RunState.inv_run (schedule : List RunAction) (s : RunState) (h : s.Inv) :
    (s.run schedule).Inv := by
  induction schedule generalizing s with
  | nil => exact h
  | cons a rest ih => exact ih (s.step a) (RunState.inv_step s a h)

theorem RunState.late_progress (s : RunState) (h : s.Inv) (hf : s.flip = some (1, 0)) :
    (s.main ≠ .done → ∃ a, (s.step a).rank < s.rank) ∧
    (∀ a, s.step a = s ∨ (s.step a).rank < s.rank) := by
  obtain ⟨h1, h2, h3, h4, h5, h6, h7, h8, h9, h10, h11, h12, h13, h14, h15⟩ := h
  obtain ⟨running, upd, wopen, main, update, checks, bodies, mbodies, flip⟩ := s
  simp only at h1 h2 h3 h4 h5 h6 h7 h8 h9 h10 h11 h12 h13 h14 h15 hf
  subst hf
  have hr : running = false := h1 (by simp)
  subst hr
  constructor
  · intro hd
    cases main <;> cases update <;> simp at h4 hd <;> cases upd <;> simp at h3 h14 <;>
      first
      | (refine ⟨.main false, ?_⟩; simp [step, mainStep, rank, mainRank, updateRank]; done)
      | (refine ⟨.update, ?_⟩; simp [step, updateStep, rank, mainRank, updateRank])
  · intro a
    cases a <;> cases main <;> cases update <;> simp at h4 <;> cases upd <;> simp at h3 <;>
      simp [step, mainStep, updateStep, flipStep, rank, mainRank, updateRank]

end RunLemmas

/-! ## The claims on `timed_loop`, the run loop and the move operations -/

section LoopClaims

open Application

/-- C11: whatever elapsed time an iteration of `timed_loop` measures, the
millisecond count it derives is at least 1, so the timestep handed to the
callback, as the exact rational count / 1000, is at least 1/1000 second.  Every
invocation of the callback in every run, finished or not, gets such a timestep;
none gets a zero or negative one. -/
theorem timestep_at_least_threshold (env : LoopEnv) (fuel : Nat) :
    (∀ e : Int, 1 ≤ duration_cast_ms (capped e) ∧
      (1 : ℚ) / 1000 ≤ deltatime (duration_cast_ms (capped e))) ∧
    (∀ ms, LoopEvent.call ms ∈ (timed_loop fuel env).1 →
      1 ≤ ms ∧ (1 : ℚ) / 1000 ≤ deltatime ms ∧ 0 < deltatime ms) := by
  have key : ∀ ms : Int, 1 ≤ ms → (1 : ℚ) / 1000 ≤ deltatime ms ∧ 0 < deltatime ms := by
    intro ms h
    have h1 : (1 : ℚ) ≤ (ms : ℚ) := by exact_mod_cast h
    unfold deltatime
    constructor
    · linarith
    · linarith
  refine ⟨fun e => ⟨one_le_duration_cast_ms_capped e,
    (key _ (one_le_duration_cast_ms_capped e)).1⟩, ?_⟩
  intro ms hms
  have h := timed_loop.go_calls env fuel 0 (env.now 0) [] (by simp) ms hms
  exact ⟨h, key ms h⟩

/-- C12 (amended): the value an iteration of `timed_loop` passes to the
callback is the whole number of milliseconds in the capped elapsed time, over
1000.  It is exactly 0.001 when the measured time is below 1 ms; when the
measured time `e` is at least 1 ms it is floor(e / 1 ms) / 1000, which is at most
`e` in seconds, within less than 0.001 of it, and equal to it when `e` is a whole
number of milliseconds. -/
theorem timestep_whole_milliseconds (e : Int) :
    (∀ ms, LoopEvent.call ms ∈ iteration e ↔ ms = duration_cast_ms (capped e)) ∧
    (e < LOOP_TRESHOLD → deltatime (duration_cast_ms (capped e)) = 1 / 1000) ∧
    (LOOP_TRESHOLD ≤ e →
      deltatime (duration_cast_ms (capped e)) = ((e / 1000000 : Int) : ℚ) / 1000 ∧
      deltatime (duration_cast_ms (capped e)) ≤ (e : ℚ) / 1000000000 ∧
      (e : ℚ) / 1000000000 < deltatime (duration_cast_ms (capped e)) + 1 / 1000 ∧
      (e % 1000000 = 0 → deltatime (duration_cast_ms (capped e)) = (e : ℚ) / 1000000000)) := by
  refine ⟨?_, ?_, ?_⟩
  · intro ms
    unfold iteration
    split <;> simp
  · intro h
    rw [duration_cast_ms_capped, if_pos h]
    norm_num [deltatime]
  · intro h
    have hT : ¬ e < LOOP_TRESHOLD := by omega
    rw [duration_cast_ms_capped, if_neg hT]
    have hd : e = 1000000 * (e / 1000000) + e % 1000000 := (Int.ediv_add_emod e 1000000).symm
    have h0 : 0 ≤ e % 1000000 := Int.emod_nonneg e (by decide)
    have h1 : e % 1000000 < 1000000 := Int.emod_lt_of_pos e (by decide)
    have hq : (e : ℚ) = 1000000 * ((e / 1000000 : Int) : ℚ) + ((e % 1000000 : Int) : ℚ) := by
      exact_mod_cast hd
    have h0q : (0 : ℚ) ≤ ((e % 1000000 : Int) : ℚ) := by exact_mod_cast h0
    have h1q : ((e % 1000000 : Int) : ℚ) < 1000000 := by exact_mod_cast h1
    unfold deltatime
    refine ⟨rfl, ?_, ?_, ?_⟩
    · rw [hq]; linarith
    · rw [hq]; linarith
    · intro hz
      rw [hz] at hq
      rw [hq]; norm_num; ring

/-- C12 counterexample: an iteration that measures 1.5 ms (1500000 ticks, not
below the threshold) calls the callback with 1 / 1000, not with 0.0015. -/
theorem timestep_truncates_submillisecond :
    timed_loop 2 lateLoop = ([.check true, .call 1, .check false], true) ∧
    LoopEvent.call 1 ∈ iteration 1500000 ∧ LOOP_TRESHOLD ≤ 1500000 ∧
    deltatime 1 = 1 / 1000 ∧ (1500000 : ℚ) / 1000000000 = 3 / 2000 ∧
    deltatime 1 ≠ (1500000 : ℚ) / 1000000000 := by
  refine ⟨by decide, by decide, by decide, ?_, ?_, ?_⟩ <;> norm_num [deltatime]

/-- C13: when the predicate answers true on its first `n` evaluations and false
on the next one, `timed_loop` ends (any fuel above `n` suffices).  Its trace is
`n` rounds, each one true evaluation followed by the round's optional sleep and
one invocation of the callback, and then the false evaluation: the callback is
invoked exactly `n` times, the predicate evaluated exactly `n + 1` times, and
nothing follows the false answer. -/
theorem timed_loop_counts (env : LoopEnv) (n fuel : Nat)
    (htrue : ∀ i, i < n → env.conditionChecker i = true)
    (hfalse : env.conditionChecker n = false) (hfuel : n < fuel) :
    timed_loop fuel env =
      (((List.range n).map env.roundEvents).flatten ++ [LoopEvent.check false], true) ∧
    (timed_loop fuel env).2 = true ∧
    (timed_loop fuel env).1.countP LoopEvent.isCall = n ∧
    (timed_loop fuel env).1.countP LoopEvent.isCheck = n + 1 := by
  have h := timed_loop.go_trace env n fuel 0 [] (by simpa using htrue) (by simpa using hfalse)
    hfuel
  simp only [Nat.zero_add, List.nil_append] at h
  have hc := roundEvents_counts env n
  unfold timed_loop
  rw [h]
  refine ⟨rfl, rfl, ?_, ?_⟩
  · simp [List.countP_append, hc.1, LoopEvent.isCall]
  · simp [List.countP_append, hc.2, LoopEvent.isCheck]

/-- C13 witness: the run `demoLoop`, whose predicate answers true, true, false. -/
theorem timed_loop_counts_witness :
    (∀ i, i < 2 → demoLoop.conditionChecker i = true) ∧ demoLoop.conditionChecker 2 = false ∧
    timed_loop 3 demoLoop =
      ([.check true, .sleep 600000, .call 1, .check true, .call 2, .check false], true) ∧
    (timed_loop 3 demoLoop).1.countP LoopEvent.isCall = 2 ∧
    (timed_loop 3 demoLoop).1.countP LoopEvent.isCheck = 3 :=
  ⟨by decide, by decide, by decide,
    (timed_loop_counts demoLoop 2 3 (by decide) (by decide) (by decide)).2.2⟩

end LoopClaims

section RunClaims

open RunState

/-- C14 (amended): in every interleaving of `loop()` with the update thread,
the update thread can have exited with `m_updating` still false only when
`running` was set to false before its first predicate check.  When `running` is
set to false after that first check and before the first callback completes:
no reachable state has the update thread exited with `m_updating` false; the
main loop invokes its callback zero times and the update thread at most once;
as long as `join()` has not returned some thread has a step that lowers the
rank, and every step either changes nothing or lowers the rank, so `loop()`
completes `join()` after boundedly many steps, with the update thread exited
after exactly one callback. -/
theorem late_stop_joins (m_updating windowOpen : Bool) (schedule : List RunAction) :
    (((start m_updating windowOpen).run schedule).update = .exited →
      ((start m_updating windowOpen).run schedule).m_updating = false →
      ((start m_updating windowOpen).run schedule).flip = some (0, 0)) ∧
    (((start m_updating windowOpen).run schedule).flip = some (1, 0) →
      ¬ (((start m_updating windowOpen).run schedule).update = .exited ∧
          ((start m_updating windowOpen).run schedule).m_updating = false) ∧
      ((start m_updating windowOpen).run schedule).mainBodies = 0 ∧
      ((start m_updating windowOpen).run schedule).updateBodies ≤ 1 ∧
      (((start m_updating windowOpen).run schedule).main = .done →
        ((start m_updating windowOpen).run schedule).update = .exited ∧
        ((start m_updating windowOpen).run schedule).updateBodies = 1) ∧
      (((start m_updating windowOpen).run schedule).main ≠ .done →
        ∃ a, (((start m_updating windowOpen).run schedule).step a).rank
          < ((start m_updating windowOpen).run schedule).rank) ∧
      (∀ a, ((start m_updating windowOpen).run schedule).step a
          = (start m_updating windowOpen).run schedule ∨
        (((start m_updating windowOpen).run schedule).step a).rank
          < ((start m_updating windowOpen).run schedule).rank)) := by
  have h := RunState.inv_run schedule _ (RunState.inv_start m_updating windowOpen)
  generalize (start m_updating windowOpen).run schedule = s at h ⊢
  refine ⟨h.exit_unset, fun hf => ?_⟩
  have hp := RunState.late_progress s h hf
  refine ⟨?_, (h.flip_first 1 hf).1, (h.flip_bounds 1 0 hf).2.2.2, ?_, hp.1, hp.2⟩
  · rintro ⟨he, hu⟩
    have := h.exit_unset he hu
    rw [hf] at this
    simp at this
  · intro hd
    refine ⟨h.joined hd, ?_⟩
    have hu : s.m_updating = true := h.past_spin (by simp [hd])
    have h1 : 1 ≤ s.updateBodies := (h.flag_bodies (by simp [hd])).2 hu
    have h2 := (h.flip_bounds 1 0 hf).2.2.2
    omega

/-- C14 witness: the schedule `lateStop`, in which `running` is set to false
while the update thread is in its first callback, ends with `join()` returned. -/
theorem late_stop_joins_witness :
    ((start true true).run lateStop).flip = some (1, 0) ∧
    ((start true true).run lateStop).main = .done ∧
    ((start true true).run lateStop).update = .exited ∧
    ((start true true).run lateStop).updateBodies = 1 ∧
    ((start true true).run lateStop).mainBodies = 0 :=
  ⟨by decide, by decide,
    (((late_stop_joins true true lateStop).2 (by decide)).2.2.2.1 (by decide)).1,
    (((late_stop_joins true true lateStop).2 (by decide)).2.2.2.1 (by decide)).2,
    ((late_stop_joins true true lateStop).2 (by decide)).2.1⟩

/-- C14 counterexample: `running` is set to false after the update thread is
created and before its first predicate check.  The update thread reads false
and exits without setting `m_updating`; the main context is in
`while (!m_updating);` and no step of any context changes the state again. -/
theorem early_stop_spins_forever :
    earlyStop = (start true true).run [.main false, .main false, .flip, .update] ∧
    earlyStop.flip = some (0, 0) ∧ earlyStop.updateBodies = 0 ∧
    earlyStop.update = .exited ∧ earlyStop.m_updating = false ∧ earlyStop.main = .spin ∧
    (∀ a, earlyStop.step a = earlyStop) ∧
    (∀ schedule, earlyStop.run schedule = earlyStop) := by
  have hs : ∀ a, earlyStop.step a = earlyStop := by
    intro a
    cases a with
    | main closes => rfl
    | update => rfl
    | flip => rfl
  refine ⟨rfl, by decide, by decide, by decide, by decide, by decide, hs, ?_⟩
  intro schedule
  induction schedule with
  | nil => rfl
  | cons a rest ih =>
    show (earlyStop.step a).run rest = earlyStop
    rw [hs a]; exact ih

end RunClaims

section MoveClaims

open Shader

variable {G : Type} (gl : OpenGL G)

/-- C15: move construction from `s`, and move assignment from `s` into another
object, give the destination exactly the five members of `s` and leave the
moved-from object equal to a freshly constructed one.  So the destination holds
a handle exactly when `s` held it and the moved-from object holds none, and,
given that the driver does not take the name 0 for a program object, a later
`clear()` of the moved-from object issues the single query `glIsProgram(0)`, no
delete, and leaves the driver state as it was. -/
theorem move_transfers_state (s dst : Shader) (w : World G)
    (h0 : gl.IsProgram w.gl 0 = false) :
    ((moveConstruct s).1 = s ∧ (moveConstruct s).2 = Shader.new) ∧
    ((moveAssign dst s).1 = s ∧ (moveAssign dst s).2 = Shader.new) ∧
    (∀ h, owns (moveConstruct s).1 h = owns s h ∧ owns (moveConstruct s).2 h = false) ∧
    (∀ h, owns (moveAssign dst s).1 h = owns s h ∧ owns (moveAssign dst s).2 h = false) ∧
    ((clear gl Shader.new w).1 = Shader.new ∧ (clear gl Shader.new w).2.gl = w.gl ∧
      (clear gl Shader.new w).2.calls = w.calls ++ [GLCall.isProgram 0]) := by
  have e1 : (moveConstruct s).1 = s := by cases s; rfl
  have e2 : (moveAssign dst s).1 = s := by cases s; rfl
  have hn : ∀ h, owns Shader.new h = false := by
    intro h
    simp [owns, Shader.new, StdMap.empty, ShaderType.all]
    intro hh; exact fun e => hh e.symm
  have he : entries (StdMap.empty : StdMap ShaderType Nat) = [] := rfl
  refine ⟨⟨e1, rfl⟩, ⟨e2, rfl⟩, fun h => ⟨by rw [e1], hn h⟩, fun h => ⟨by rw [e2], hn h⟩,
    ?_, ?_, ?_⟩
  · simp [clear, Shader.new]
  · simp [clear, Shader.new, he, glIsProgram, h0, World.call]
  · simp [clear, Shader.new, he, glIsProgram, h0, World.call]

/-- C15 witness: the linked shader of the reference driver, which holds the
stage handles 1 and 2 and the program handle 3. -/
theorem move_transfers_state_witness :
    ∃ s w, demoLinked = .ok (s, w) ∧ demoGL.IsProgram w.gl 0 = false ∧
      owns s 1 = true ∧ owns s 2 = true ∧ owns s 3 = true ∧
      ((moveConstruct s).1 = s ∧ (moveConstruct s).2 = Shader.new) ∧
      ((moveAssign Shader.new s).1 = s ∧ (moveAssign Shader.new s).2 = Shader.new) ∧
      (∀ h, owns (moveConstruct s).1 h = owns s h ∧ owns (moveConstruct s).2 h = false) ∧
      (∀ h, owns (moveAssign Shader.new s).1 h = owns s h ∧
        owns (moveAssign Shader.new s).2 h = false) ∧
      ((clear demoGL Shader.new w).1 = Shader.new ∧ (clear demoGL Shader.new w).2.gl = w.gl ∧
        (clear demoGL Shader.new w).2.calls = w.calls ++ [GLCall.isProgram 0]) :=
  ⟨_, _, rfl, by decide, by decide, by decide, by decide,
    move_transfers_state demoGL _ Shader.new _ (by decide)⟩

end MoveClaims
